import Mathlib

/-!
# Share-link generation (`share/generate_share.go`)

A shallow embedding of the Go package `share`: the conversion of an Xray
configuration document into share links.

Conventions of the embedding

* A Go `string` that was decoded from JSON is valid UTF-8, so it is a Lean
  `String`; `[]byte` values (the input document, `json.RawMessage` blobs) are
  lists of byte values.
* A Go pointer or slice that may be `nil` is an `Option`.
* A Go call either returns or panics (`Run`).  A returned `(*T, error)` pair
  is an `Except`; the `(string, error)` pair of the exported function is kept
  as a pair, with `none` for a nil error.
* The functions of `encoding/json` used by the package, and the helper
  `getOutboundName` that lives in another file of the package, are taken as
  parameters (`Env`).
* `net/url` and `encoding/base64` are standard-library code; the parts the
  package calls are modelled after their Go sources.
-/

namespace Share

/-! ## Go runtime -/

/-- Outcome of running a piece of Go code: it returns a value or panics. -/
inductive Run (α : Type) where
  | ret (a : α)
  | panic (msg : String)
deriving DecidableEq, Repr

/-- Equality of `(value, error)` results is decidable. -/
instance instDecidableEqExcept {ε α : Type} [DecidableEq ε] [DecidableEq α] :
    DecidableEq (Except ε α) := fun a b =>
  match a, b with
  | .ok x, .ok y => if h : x = y then isTrue (by rw [h]) else isFalse (by intro e; cases e; exact h rfl)
  | .error x, .error y =>
    if h : x = y then isTrue (by rw [h]) else isFalse (by intro e; cases e; exact h rfl)
  | .ok _, .error _ => isFalse (by intro e; cases e)
  | .error _, .ok _ => isFalse (by intro e; cases e)

/-- Byte sequences (`[]byte`), one natural number below 256 per byte. -/
abbrev Bytes := List Nat

/-- The UTF-8 encoding of one character. -/
def utf8Char (c : Char) : Bytes :=
  let n := c.toNat
  if n < 0x80 then [n]
  else if n < 0x800 then [0xC0 + n / 64, 0x80 + n % 64]
  else if n < 0x10000 then [0xE0 + n / 4096, 0x80 + n / 64 % 64, 0x80 + n % 64]
  else [0xF0 + n / 262144, 0x80 + n / 4096 % 64, 0x80 + n / 64 % 64, 0x80 + n % 64]

/-- The bytes of a string: Go `[]byte(s)`. -/
def utf8 (s : String) : Bytes := s.data.flatMap utf8Char

/-- Go `len(s)` of a string: its length in bytes. -/
def len (s : String) : Nat := (utf8 s).length

/-- Go `strings.Join(elems, sep)`. -/
def stringsJoin : List String → String → String
  | [], _ => ""
  | [a], _ => a
  | a :: b :: rest, sep => a ++ sep ++ stringsJoin (b :: rest) sep

/-! ## `net/url` -/

/-- The escaping modes of `net/url`. -/
inductive Encoding where
  | encodePath
  | encodePathSegment
  | encodeHost
  | encodeZone
  | encodeUserPassword
  | encodeQueryComponent
  | encodeFragment
deriving DecidableEq, Repr

/-- Byte value of an ASCII character. -/
def byte (c : Char) : Nat := c.toNat

/-- Go `shouldEscape(c, mode)` of `net/url`. -/
def shouldEscape (c : Nat) (mode : Encoding) : Bool :=
  if (byte 'a' ≤ c ∧ c ≤ byte 'z') ∨ (byte 'A' ≤ c ∧ c ≤ byte 'Z') ∨ (byte '0' ≤ c ∧ c ≤ byte '9') then
    false
  else if (mode = .encodeHost ∨ mode = .encodeZone) ∧
      c ∈ [byte '!', byte '$', byte '&', byte '\'', byte '(', byte ')', byte '*', byte '+', byte ',',
        byte ';', byte '=', byte ':', byte '[', byte ']', byte '<', byte '>', byte '"'] then
    false
  else if c ∈ [byte '-', byte '_', byte '.', byte '~'] then
    false
  else if c ∈ [byte '$', byte '&', byte '+', byte ',', byte '/', byte ':', byte ';', byte '=', byte '?',
      byte '@'] then
    match mode with
    | .encodePath => c = byte '?'
    | .encodePathSegment => c = byte '/' ∨ c = byte ';' ∨ c = byte ',' ∨ c = byte '?'
    | .encodeUserPassword => c = byte '@' ∨ c = byte '/' ∨ c = byte '?' ∨ c = byte ':'
    | .encodeQueryComponent => true
    | .encodeFragment => false
    | _ => true
  else if mode = .encodeFragment ∧ c ∈ [byte '!', byte '(', byte ')', byte '*'] then
    false
  else
    true

/-- The table `upperhex` of `net/url`, indexed by a nibble. -/
def upperhex (n : Nat) : Char :=
  if n < 10 then Char.ofNat (byte '0' + n) else Char.ofNat (byte 'A' + (n - 10))

/-- What `escape` writes for one input byte. -/
def escapeByte (mode : Encoding) (c : Nat) : List Char :=
  if c = byte ' ' ∧ mode = .encodeQueryComponent then ['+']
  else if shouldEscape c mode then ['%', upperhex (c / 16), upperhex (c % 16)]
  else [Char.ofNat c]

/-- Go `escape(s, mode)` of `net/url`. -/
def escape (s : String) (mode : Encoding) : String :=
  ⟨(utf8 s).flatMap (escapeByte mode)⟩

/-- Go `url.QueryEscape`. -/
def QueryEscape (s : String) : String := escape s .encodeQueryComponent

/-- Go `url.Userinfo`. -/
structure Userinfo where
  username : String
  password : String
  passwordSet : Bool
deriving DecidableEq, Repr

/-- Go `url.User(username)`. -/
def User (username : String) : Userinfo :=
  { username := username, password := "", passwordSet := false }

/-- Go `(*Userinfo).String`. -/
def Userinfo.String (u : Userinfo) : String :=
  let s := escape u.username .encodeUserPassword
  if u.passwordSet then s ++ ":" ++ escape u.password .encodeUserPassword else s

/-- Go `url.URL`, with the fields this package writes.  The remaining fields
(`Opaque`, `Path`, `RawPath`, `RawFragment`, `OmitHost`, `ForceQuery`) keep
their zero values throughout. -/
structure URL where
  Scheme : String := ""
  User : Option Userinfo := none
  Host : String := ""
  RawQuery : String := ""
  Fragment : String := ""
deriving DecidableEq, Repr

/-- Go `(*URL).String`, for a URL whose unlisted fields are zero. -/
def URL.String (u : URL) : String :=
  let buf := if u.Scheme ≠ "" then u.Scheme ++ ":" else ""
  let buf :=
    if u.Scheme ≠ "" ∨ u.Host ≠ "" ∨ u.User ≠ none then
      let buf := if u.Host ≠ "" ∨ u.User ≠ none then buf ++ "//" else buf
      let buf := match u.User with
        | some ui => buf ++ ui.String ++ "@"
        | none => buf
      if u.Host ≠ "" then buf ++ escape u.Host .encodeHost else buf
    else buf
  let buf := if u.RawQuery ≠ "" then buf ++ "?" ++ u.RawQuery else buf
  if u.Fragment ≠ "" then buf ++ "#" ++ escape u.Fragment .encodeFragment else buf

/-! ## `encoding/base64` (`StdEncoding`) -/

/-- The standard base64 alphabet, indexed by a 6-bit value. -/
def encodeStd (n : Nat) : Char :=
  if n < 26 then Char.ofNat (byte 'A' + n)
  else if n < 52 then Char.ofNat (byte 'a' + (n - 26))
  else if n < 62 then Char.ofNat (byte '0' + (n - 52))
  else if n = 62 then '+'
  else '/'

/-- The decode map of the standard alphabet; `none` for any other character. -/
def decodeStd (c : Char) : Option Nat :=
  let n := c.toNat
  if byte 'A' ≤ n ∧ n ≤ byte 'Z' then some (n - byte 'A')
  else if byte 'a' ≤ n ∧ n ≤ byte 'z' then some (n - byte 'a' + 26)
  else if byte '0' ≤ n ∧ n ≤ byte '9' then some (n - byte '0' + 52)
  else if c = '+' then some 62
  else if c = '/' then some 63
  else none

/-- The quanta written by `Encoding.Encode`: three bytes become four
characters, and a final group of one or two bytes is padded with `=`. -/
def encodeQuanta : Bytes → List Char
  | [] => []
  | [a] =>
    let val := a * 65536
    [encodeStd (val / 262144 % 64), encodeStd (val / 4096 % 64), '=', '=']
  | [a, b] =>
    let val := a * 65536 + b * 256
    [encodeStd (val / 262144 % 64), encodeStd (val / 4096 % 64), encodeStd (val / 64 % 64), '=']
  | a :: b :: c :: rest =>
    let val := a * 65536 + b * 256 + c
    encodeStd (val / 262144 % 64) :: encodeStd (val / 4096 % 64) :: encodeStd (val / 64 % 64) ::
      encodeStd (val % 64) :: encodeQuanta rest

/-- Go `base64.StdEncoding.EncodeToString`. -/
def EncodeToString (src : Bytes) : String := ⟨encodeQuanta src⟩

/-- The quanta read by `Encoding.Decode`, after newlines were dropped: four
alphabet characters give three bytes; padding is accepted in the last
quantum only, and anything else is corrupt input. -/
def decodeQuanta : List Char → Option Bytes
  | [] => some []
  | w :: x :: y :: z :: rest =>
    if z = '=' then
      if rest ≠ [] then none
      else if y = '=' then
        match decodeStd w, decodeStd x with
        | some s0, some s1 =>
          let val := s0 * 262144 + s1 * 4096
          some [val / 65536 % 256]
        | _, _ => none
      else
        match decodeStd w, decodeStd x, decodeStd y with
        | some s0, some s1, some s2 =>
          let val := s0 * 262144 + s1 * 4096 + s2 * 64
          some [val / 65536 % 256, val / 256 % 256]
        | _, _, _ => none
    else
      match decodeStd w, decodeStd x, decodeStd y, decodeStd z, decodeQuanta rest with
      | some s0, some s1, some s2, some s3, some tail =>
        let val := s0 * 262144 + s1 * 4096 + s2 * 64 + s3
        some (val / 65536 % 256 :: val / 256 % 256 :: val % 256 :: tail)
      | _, _, _, _, _ => none
  | _ => none

/-- Go `base64.StdEncoding.DecodeString`; `none` is a `CorruptInputError`.
Carriage returns and newlines in the input are ignored. -/
def DecodeString (s : String) : Option Bytes :=
  decodeQuanta (s.data.filter (fun c => c ≠ '\r' ∧ c ≠ '\n'))

/-! ## Configuration types (`xray-core/infra/conf`), with the fields the package reads -/

/-- A `json.RawMessage`: the raw bytes of a JSON value that is not decoded yet. -/
abbrev RawMessage := Bytes

/-- Go `conf.TLSConfig`. -/
structure TLSConfig where
  Insecure : Bool := false
  ServerName : String := ""
  ALPN : Option (List String) := none
  Fingerprint : String := ""
deriving DecidableEq, Repr

/-- Go `conf.REALITYConfig`. -/
structure REALITYConfig where
  Fingerprint : String := ""
  ServerName : String := ""
  Password : String := ""
  ShortId : String := ""
  Mldsa65Verify : String := ""
  SpiderX : String := ""
deriving DecidableEq, Repr

/-- Go `conf.TCPConfig` (the raw transport). -/
structure TCPConfig where
  HeaderConfig : Option RawMessage := none
deriving DecidableEq, Repr

/-- Go `conf.KCPConfig`. -/
structure KCPConfig where
  HeaderConfig : Option RawMessage := none
  Seed : Option String := none
deriving DecidableEq, Repr

/-- Go `conf.WebSocketConfig`. -/
structure WebSocketConfig where
  Host : String := ""
  Path : String := ""
deriving DecidableEq, Repr

/-- Go `conf.GRPCConfig`. -/
structure GRPCConfig where
  Authority : String := ""
  ServiceName : String := ""
  MultiMode : Bool := false
deriving DecidableEq, Repr

/-- Go `conf.HttpUpgradeConfig`. -/
structure HttpUpgradeConfig where
  Host : String := ""
  Path : String := ""
deriving DecidableEq, Repr

/-- Go `conf.SplitHTTPConfig`. -/
structure SplitHTTPConfig where
  Host : String := ""
  Path : String := ""
  Mode : String := ""
  Extra : Option RawMessage := none
deriving DecidableEq, Repr

/-- Go `conf.StreamConfig`; `Network` is a `*TransportProtocol`, a string type. -/
structure StreamConfig where
  Network : Option String := none
  Security : String := ""
  TLSSettings : Option TLSConfig := none
  REALITYSettings : Option REALITYConfig := none
  RAWSettings : Option TCPConfig := none
  XHTTPSettings : Option SplitHTTPConfig := none
  KCPSettings : Option KCPConfig := none
  GRPCSettings : Option GRPCConfig := none
  WSSettings : Option WebSocketConfig := none
  HTTPUPGRADESettings : Option HttpUpgradeConfig := none
deriving DecidableEq, Repr

/-- Go `conf.OutboundDetourConfig`. -/
structure OutboundDetourConfig where
  Protocol : String := ""
  Tag : String := ""
  Settings : Option RawMessage := none
  StreamSetting : Option StreamConfig := none
deriving DecidableEq, Repr

/-- Go `conf.Config`. -/
structure Config where
  OutboundConfigs : List OutboundDetourConfig := []
deriving DecidableEq, Repr

/-- Go `conf.ShadowsocksClientConfig`.  `Address` is a `*conf.Address`, kept
as the text its `String` method returns; `Port` is a `uint16`. -/
structure ShadowsocksClientConfig where
  Address : Option String := none
  Port : Nat := 0
  Cipher : String := ""
  Password : String := ""
deriving DecidableEq, Repr

/-- Go `conf.VMessOutboundConfig`. -/
structure VMessOutboundConfig where
  Address : Option String := none
  Port : Nat := 0
  ID : String := ""
  Security : String := ""
deriving DecidableEq, Repr

/-- Go `conf.VLessOutboundConfig`. -/
structure VLessOutboundConfig where
  Address : Option String := none
  Port : Nat := 0
  Id : String := ""
  Flow : String := ""
  Encryption : String := ""
deriving DecidableEq, Repr

/-- Go `conf.SocksClientConfig`. -/
structure SocksClientConfig where
  Address : Option String := none
  Port : Nat := 0
  Username : String := ""
  Password : String := ""
deriving DecidableEq, Repr

/-- Go `conf.TrojanClientConfig`. -/
structure TrojanClientConfig where
  Address : Option String := none
  Port : Nat := 0
  Password : String := ""
deriving DecidableEq, Repr

/-! ## Header types of the package (declared in another file of the package) -/

/-- Modelled from the spec: the type `XrayRawSettingsHeaderRequestHeaders`,
whose declaration is not in `generate_share.go`; the field is the one the
code reads (the request host list). -/
structure XrayRawSettingsHeaderRequestHeaders where
  Host : List String := []
deriving DecidableEq, Repr

/-- Modelled from the spec: the type `XrayRawSettingsHeaderRequest`, whose
declaration is not in `generate_share.go`; the fields are the ones the code
reads (the request paths and the optional request headers). -/
structure XrayRawSettingsHeaderRequest where
  Path : List String := []
  Headers : Option XrayRawSettingsHeaderRequestHeaders := none
deriving DecidableEq, Repr

/-- Modelled from the spec: the type `XrayRawSettingsHeader`, whose
declaration is not in `generate_share.go`; the fields are the ones the code
reads (the header type and the optional request). -/
structure XrayRawSettingsHeader where
  Type_ : String := ""
  Request : Option XrayRawSettingsHeaderRequest := none
deriving DecidableEq, Repr

/-- Modelled from the spec: the type `XrayFakeHeader`, whose declaration is
not in `generate_share.go`; the field is the one the code reads (the
fake-header type). -/
structure XrayFakeHeader where
  Type_ : String := ""
deriving DecidableEq, Repr

/-! ## Collaborators -/

/-- What the package calls but does not define in `generate_share.go`.

`unmarshalX raw` is `json.Unmarshal(raw, &p)` for a nil pointer `p` of type
`*X`: an error, or the pointer afterwards (`none` when the JSON value is
`null` and the pointer stays nil).  `marshalSplitHTTP` is
`json.Marshal` of a `*conf.SplitHTTPConfig`, converted to a string.
`getOutboundName` is the display name of an outbound. -/
structure Env where
  unmarshalConfig : Bytes → Except String (Option Config)
  unmarshalShadowsocks : RawMessage → Except String (Option ShadowsocksClientConfig)
  unmarshalVMess : RawMessage → Except String (Option VMessOutboundConfig)
  unmarshalVLess : RawMessage → Except String (Option VLessOutboundConfig)
  unmarshalSocks : RawMessage → Except String (Option SocksClientConfig)
  unmarshalTrojan : RawMessage → Except String (Option TrojanClientConfig)
  unmarshalRawHeader : RawMessage → Except String (Option XrayRawSettingsHeader)
  unmarshalFakeHeader : RawMessage → Except String (Option XrayFakeHeader)
  unmarshalSplitHTTP : RawMessage → Except String (Option SplitHTTPConfig)
  marshalSplitHTTP : Option SplitHTTPConfig → Except String String
  getOutboundName : OutboundDetourConfig → String

/-- The message of the Go runtime panic raised by a nil pointer dereference. -/
def nilDereference : String :=
  "runtime error: invalid memory address or nil pointer dereference"

/-- Go `fmt.Sprintf("%s:%d", address, port)` for a `*conf.Address` and a
`uint16`: a nil address prints as `<nil>`. -/
def sprintHost (address : Option String) (port : Nat) : String :=
  (match address with
    | some a => a
    | none => "<nil>") ++ ":" ++ toString port

/-! ## `generate_share.go` -/

/-- Go `addQuery`. -/
def addQuery (query : String) (key : String) (value : String) : String :=
  let newQuery := key ++ "=" ++ QueryEscape value
  if len query = 0 then newQuery else query ++ "&" ++ newQuery

/-- Go `shadowsocksLink`. -/
def shadowsocksLink (env : Env) (proxy : OutboundDetourConfig) (link : URL) :
    Run (Except String URL) :=
  match proxy.Settings with
  | none => .panic nilDereference
  | some raw =>
    match env.unmarshalShadowsocks raw with
    | .error err => .ret (.error err)
    | .ok none => .panic nilDereference
    | .ok (some settings) =>
      let link := { link with Fragment := env.getOutboundName proxy }
      let link := { link with Scheme := "ss" }
      let link := { link with Host := sprintHost settings.Address settings.Port }
      let password := settings.Cipher ++ ":" ++ settings.Password
      let username := EncodeToString (utf8 password)
      let link := { link with User := some (User username) }
      .ret (.ok link)

/-- Go `vmessLink`. -/
def vmessLink (env : Env) (proxy : OutboundDetourConfig) (link : URL) :
    Run (Except String URL) :=
  match proxy.Settings with
  | none => .panic nilDereference
  | some raw =>
    match env.unmarshalVMess raw with
    | .error err => .ret (.error err)
    | .ok none => .panic nilDereference
    | .ok (some settings) =>
      let link := { link with Fragment := env.getOutboundName proxy }
      let link := { link with Scheme := "vmess" }
      let link := { link with Host := sprintHost settings.Address settings.Port }
      let link := { link with User := some (User settings.ID) }
      let link :=
        if len settings.Security > 0 then
          { link with RawQuery := addQuery link.RawQuery "encryption" settings.Security }
        else link
      .ret (.ok link)

/-- Go `vlessLink`. -/
def vlessLink (env : Env) (proxy : OutboundDetourConfig) (link : URL) :
    Run (Except String URL) :=
  match proxy.Settings with
  | none => .panic nilDereference
  | some raw =>
    match env.unmarshalVLess raw with
    | .error err => .ret (.error err)
    | .ok none => .panic nilDereference
    | .ok (some settings) =>
      let link := { link with Fragment := env.getOutboundName proxy }
      let link := { link with Scheme := "vless" }
      let link := { link with Host := sprintHost settings.Address settings.Port }
      let link := { link with User := some (User settings.Id) }
      let link :=
        if len settings.Flow > 0 then
          { link with RawQuery := addQuery link.RawQuery "flow" settings.Flow }
        else link
      let link :=
        if len settings.Encryption > 0 then
          { link with RawQuery := addQuery link.RawQuery "encryption" settings.Encryption }
        else link
      .ret (.ok link)

/-- Go `socksLink`. -/
def socksLink (env : Env) (proxy : OutboundDetourConfig) (link : URL) :
    Run (Except String URL) :=
  match proxy.Settings with
  | none => .panic nilDereference
  | some raw =>
    match env.unmarshalSocks raw with
    | .error err => .ret (.error err)
    | .ok none => .panic nilDereference
    | .ok (some settings) =>
      let link := { link with Fragment := env.getOutboundName proxy }
      let link := { link with Scheme := "socks" }
      let link := { link with Host := sprintHost settings.Address settings.Port }
      let password := settings.Username ++ ":" ++ settings.Password
      let username := EncodeToString (utf8 password)
      let link := { link with User := some (User username) }
      .ret (.ok link)

/-- Go `trojanLink`. -/
def trojanLink (env : Env) (proxy : OutboundDetourConfig) (link : URL) :
    Run (Except String URL) :=
  match proxy.Settings with
  | none => .panic nilDereference
  | some raw =>
    match env.unmarshalTrojan raw with
    | .error err => .ret (.error err)
    | .ok none => .panic nilDereference
    | .ok (some settings) =>
      let link := { link with Fragment := env.getOutboundName proxy }
      let link := { link with Scheme := "trojan" }
      let link := { link with Host := sprintHost settings.Address settings.Port }
      let link := { link with User := some (User settings.Password) }
      .ret (.ok link)

/-- The local variable `network` of `streamSettingsQuery`: the transport kind
of the block, and `raw` when the block gives none. -/
def networkOf (streamSettings : StreamConfig) : String :=
  match streamSettings.Network with
  | some n => n
  | none => "raw"

/-- The `case "raw":` arm of the switch on `network` in `streamSettingsQuery`. -/
def rawCase (env : Env) (streamSettings : StreamConfig) (query : String) : Run String :=
  match streamSettings.RAWSettings with
  | none => .ret query
  | some rawSettings =>
    match rawSettings.HeaderConfig with
    | none => .ret query
    | some headerConfig =>
      match env.unmarshalRawHeader headerConfig with
      | .error _ => .ret query
      | .ok none => .panic nilDereference
      | .ok (some header) =>
        let headerType := header.Type_
        if len headerType > 0 then
          let query := addQuery query "headerType" headerType
          match header.Request with
          | none => .ret query
          | some request =>
            let path := request.Path
            let query :=
              if path.length > 0 then addQuery query "path" (stringsJoin path ",") else query
            match request.Headers with
            | none => .ret query
            | some headers =>
              let host := headers.Host
              let query :=
                if host.length > 0 then addQuery query "host" (stringsJoin host ",") else query
              .ret query
        else .ret query

/-- The `case "kcp":` arm of the switch on `network` in `streamSettingsQuery`. -/
def kcpCase (env : Env) (streamSettings : StreamConfig) (query : String) : Run String :=
  match streamSettings.KCPSettings with
  | none => .ret query
  | some kcpSettings =>
    let query :=
      match kcpSettings.Seed with
      | some seed => if len seed > 0 then addQuery query "seed" seed else query
      | none => query
    match kcpSettings.HeaderConfig with
    | none => .ret query
    | some headerConfig =>
      match env.unmarshalFakeHeader headerConfig with
      | .error _ => .ret query
      | .ok none => .panic nilDereference
      | .ok (some header) =>
        let headerType := header.Type_
        if len headerType > 0 then .ret (addQuery query "headerType" headerType)
        else .ret query

/-- The `case "ws":` arm of the switch on `network` in `streamSettingsQuery`. -/
def wsCase (streamSettings : StreamConfig) (query : String) : String :=
  match streamSettings.WSSettings with
  | none => query
  | some wsSettings =>
    let path := wsSettings.Path
    let query := if len path > 0 then addQuery query "path" path else query
    let host := wsSettings.Host
    if len host > 0 then addQuery query "host" host else query

/-- The `case "grpc":` arm of the switch on `network` in `streamSettingsQuery`. -/
def grpcCase (streamSettings : StreamConfig) (query : String) : String :=
  match streamSettings.GRPCSettings with
  | none => query
  | some grpcSettings =>
    let mode := grpcSettings.MultiMode
    let query := if mode then addQuery query "mode" "multi" else addQuery query "mode" "gun"
    let serviceName := grpcSettings.ServiceName
    let query := if len serviceName > 0 then addQuery query "serviceName" serviceName else query
    let authority := grpcSettings.Authority
    if len authority > 0 then addQuery query "authority" authority else query

/-- The `case "httpupgrade":` arm of the switch on `network` in `streamSettingsQuery`. -/
def httpupgradeCase (streamSettings : StreamConfig) (query : String) : String :=
  match streamSettings.HTTPUPGRADESettings with
  | none => query
  | some httpupgradeSettings =>
    let host := httpupgradeSettings.Host
    let query := if len host > 0 then addQuery query "host" host else query
    let path := httpupgradeSettings.Path
    if len path > 0 then addQuery query "path" path else query

/-- The `case "xhttp":` arm of the switch on `network` in `streamSettingsQuery`. -/
def xhttpCase (env : Env) (streamSettings : StreamConfig) (query : String) : String :=
  match streamSettings.XHTTPSettings with
  | none => query
  | some xhttpSettings =>
    let host := xhttpSettings.Host
    let query := if len host > 0 then addQuery query "host" host else query
    let path := xhttpSettings.Path
    let query := if len path > 0 then addQuery query "path" path else query
    let mode := xhttpSettings.Mode
    let query := if len mode > 0 then addQuery query "mode" mode else query
    match xhttpSettings.Extra with
    | none => query
    | some extra =>
      match env.unmarshalSplitHTTP extra with
      | .error _ => query
      | .ok extraConfig =>
        match env.marshalSplitHTTP extraConfig with
        | .error _ => query
        | .ok extraBytes => addQuery query "extra" extraBytes

/-- The `switch network` statement of `streamSettingsQuery`. -/
def networkSwitch (env : Env) (network : String) (streamSettings : StreamConfig)
    (query : String) : Run String :=
  if network = "raw" then rawCase env streamSettings query
  else if network = "kcp" then kcpCase env streamSettings query
  else if network = "ws" then .ret (wsCase streamSettings query)
  else if network = "grpc" then .ret (grpcCase streamSettings query)
  else if network = "httpupgrade" then .ret (httpupgradeCase streamSettings query)
  else if network = "xhttp" then .ret (xhttpCase env streamSettings query)
  else .ret query

/-- The `case "tls":` arm of the switch on the security kind in `streamSettingsQuery`. -/
def tlsCase (streamSettings : StreamConfig) (query : String) : String :=
  match streamSettings.TLSSettings with
  | none => query
  | some tlsSettings =>
    let fp := tlsSettings.Fingerprint
    let query := if len fp > 0 then addQuery query "fp" fp else query
    let sni := tlsSettings.ServerName
    let query := if len sni > 0 then addQuery query "sni" sni else query
    let query :=
      match tlsSettings.ALPN with
      | some alpn => if alpn.length > 0 then addQuery query "alpn" (stringsJoin alpn ",") else query
      | none => query
    let allowInsecure := tlsSettings.Insecure
    if allowInsecure then addQuery query "allowInsecure" "1" else query

/-- The `case "reality":` arm of the switch on the security kind in `streamSettingsQuery`. -/
def realityCase (streamSettings : StreamConfig) (query : String) : String :=
  match streamSettings.REALITYSettings with
  | none => query
  | some realitySettings =>
    let fp := realitySettings.Fingerprint
    let query := if len fp > 0 then addQuery query "fp" fp else query
    let sni := realitySettings.ServerName
    let query := if len sni > 0 then addQuery query "sni" sni else query
    let pbk := realitySettings.Password
    let query := if len pbk > 0 then addQuery query "pbk" pbk else query
    let sid := realitySettings.ShortId
    let query := if len sid > 0 then addQuery query "sid" sid else query
    let pqv := realitySettings.Mldsa65Verify
    let query := if len pqv > 0 then addQuery query "pqv" pqv else query
    let spx := realitySettings.SpiderX
    if len spx > 0 then addQuery query "spx" spx else query

/-- The `switch streamSettings.Security` statement of `streamSettingsQuery`. -/
def securitySwitch (streamSettings : StreamConfig) (query : String) : String :=
  if streamSettings.Security = "tls" then tlsCase streamSettings query
  else if streamSettings.Security = "reality" then realityCase streamSettings query
  else query

/-- Go `streamSettingsQuery`.  The function writes through two pointers, the
link and `proxy.StreamSetting`; the result is the descriptor and the link as
they stand when the function returns. -/
def streamSettingsQuery (env : Env) (proxy : OutboundDetourConfig) (link : URL) :
    Run (OutboundDetourConfig × URL) :=
  match proxy.StreamSetting with
  | none => .ret (proxy, link)
  | some streamSettings =>
    let query := link.RawQuery
    let network := networkOf streamSettings
    let query := addQuery query "type" network
    let streamSettings :=
      if len streamSettings.Security = 0 then { streamSettings with Security := "none" }
      else streamSettings
    let query := addQuery query "security" streamSettings.Security
    match networkSwitch env network streamSettings query with
    | .panic msg => .panic msg
    | .ret query =>
      let query := securitySwitch streamSettings query
      .ret ({ proxy with StreamSetting := some streamSettings }, { link with RawQuery := query })

/-- The `switch proxy.Protocol` statement of `shareLink`: the link builder of
the protocol, and nothing for any other protocol. -/
def protocolSwitch (env : Env) (proxy : OutboundDetourConfig) (shareUrl : URL) :
    Run (Except String URL) :=
  if proxy.Protocol = "shadowsocks" then shadowsocksLink env proxy shareUrl
  else if proxy.Protocol = "vmess" then vmessLink env proxy shareUrl
  else if proxy.Protocol = "vless" then vlessLink env proxy shareUrl
  else if proxy.Protocol = "socks" then socksLink env proxy shareUrl
  else if proxy.Protocol = "trojan" then trojanLink env proxy shareUrl
  else .ret (.ok shareUrl)

/-- Go `shareLink`.  The result pairs the descriptor as it stands afterwards
with the returned `(*url.URL, error)`. -/
def shareLink (env : Env) (proxy : OutboundDetourConfig) :
    Run (OutboundDetourConfig × Except String URL) :=
  let shareUrl : URL := {}
  match protocolSwitch env proxy shareUrl with
  | .panic msg => .panic msg
  | .ret (.error err) => .ret (proxy, .error err)
  | .ret (.ok shareUrl) =>
    match streamSettingsQuery env proxy shareUrl with
    | .panic msg => .panic msg
    | .ret (proxy, shareUrl) => .ret (proxy, .ok shareUrl)

/-- The loop of `ConvertXrayJsonToShareLinks` over the outbounds, started
with the links collected so far. -/
def collectLinks (env : Env) : List OutboundDetourConfig → List String → Run (List String)
  | [], links => .ret links
  | outbound :: rest, links =>
    match shareLink env outbound with
    | .panic msg => .panic msg
    | .ret (_, .ok link) => collectLinks env rest (links ++ [link.String])
    | .ret (_, .error _) => collectLinks env rest links

/-- Go `ConvertXrayJsonToShareLinks`: the returned `(string, error)` pair,
with `none` for a nil error. -/
def ConvertXrayJsonToShareLinks (env : Env) (xrayBytes : Bytes) : Run (String × Option String) :=
  match env.unmarshalConfig xrayBytes with
  | .error err => .ret ("", some err)
  | .ok none => .panic nilDereference
  | .ok (some xray) =>
    let outbounds := xray.OutboundConfigs
    if outbounds.length = 0 then .ret ("", some "no valid outbounds")
    else
      match collectLinks env outbounds [] with
      | .panic msg => .panic msg
      | .ret links =>
        if links.length = 0 then .ret ("", some "no valid outbounds")
        else .ret (stringsJoin links "\n", none)

/-! ## Vocabulary of the specification -/

/-- The query obtained from `query` by a run of `addQuery` calls, one per
`(key, value)` parameter, in list order. -/
def addQueries (query : String) (params : List (String × String)) : String :=
  params.foldl (fun q p => addQuery q p.1 p.2) query

/-- The keys of the transport-specific parameters. -/
def transportKeys : List String :=
  ["headerType", "path", "host", "seed", "mode", "serviceName", "authority", "extra"]

/-- The keys of the security-specific parameters. -/
def securityKeys : List String :=
  ["fp", "sni", "alpn", "allowInsecure", "pbk", "sid", "pqv", "spx"]

/-- The security kind of a transport settings block, `none` when it is empty. -/
def securityOf (streamSettings : StreamConfig) : String :=
  if streamSettings.Security = "" then "none" else streamSettings.Security

/-- The raw header blob of the block is present and decodes to the JSON
value `null`, which leaves the decoded pointer nil. -/
def rawHeaderNull (env : Env) (streamSettings : StreamConfig) : Bool :=
  match streamSettings.RAWSettings with
  | none => false
  | some rawSettings =>
    match rawSettings.HeaderConfig with
    | none => false
    | some headerConfig =>
      match env.unmarshalRawHeader headerConfig with
      | .ok none => true
      | _ => false

/-- The kcp header blob of the block is present and decodes to the JSON
value `null`, which leaves the decoded pointer nil. -/
def kcpHeaderNull (env : Env) (streamSettings : StreamConfig) : Bool :=
  match streamSettings.KCPSettings with
  | none => false
  | some kcpSettings =>
    match kcpSettings.HeaderConfig with
    | none => false
    | some headerConfig =>
      match env.unmarshalFakeHeader headerConfig with
      | .ok none => true
      | _ => false

/-- The header blob that the transport kind of the block makes
`streamSettingsQuery` decode (the raw header for `raw`, the kcp header for
`kcp`) is present and decodes to the JSON value `null`. -/
def headerDecodesToNull (env : Env) (streamSettings : StreamConfig) : Bool :=
  if networkOf streamSettings = "raw" then rawHeaderNull env streamSettings
  else if networkOf streamSettings = "kcp" then kcpHeaderNull env streamSettings
  else false

/-- The parameter `key=value`, present if and only if the value is non-empty. -/
def paramIfSet (key value : String) : List (String × String) :=
  if value ≠ "" then [(key, value)] else []

/-- The parameter `key=<elems joined by ",">`, present if and only if the
list is non-empty. -/
def paramIfAny (key : String) (elems : List String) : List (String × String) :=
  if elems ≠ [] then [(key, stringsJoin elems ",")] else []

/-- The parameters of a decoded raw header: nothing for an empty header type;
otherwise `headerType`, then `path` for a request with paths, then `host` for
a request whose headers have a host list. -/
def rawHeaderParams (header : XrayRawSettingsHeader) : List (String × String) :=
  if header.Type_ ≠ "" then
    ("headerType", header.Type_) ::
      (match header.Request with
        | none => []
        | some request =>
          paramIfAny "path" request.Path ++
            (match request.Headers with
              | none => []
              | some headers => paramIfAny "host" headers.Host))
  else []

/-- The transport-specific parameters of transport kind `raw`. -/
def rawParams (env : Env) (streamSettings : StreamConfig) : List (String × String) :=
  match streamSettings.RAWSettings with
  | none => []
  | some rawSettings =>
    match rawSettings.HeaderConfig with
    | none => []
    | some headerConfig =>
      match env.unmarshalRawHeader headerConfig with
      | .ok (some header) => rawHeaderParams header
      | _ => []

/-- The transport-specific parameters of transport kind `kcp`: `seed`, then
`headerType`. -/
def kcpParams (env : Env) (streamSettings : StreamConfig) : List (String × String) :=
  match streamSettings.KCPSettings with
  | none => []
  | some kcpSettings =>
    (match kcpSettings.Seed with
      | some seed => paramIfSet "seed" seed
      | none => []) ++
    (match kcpSettings.HeaderConfig with
      | none => []
      | some headerConfig =>
        match env.unmarshalFakeHeader headerConfig with
        | .ok (some header) => paramIfSet "headerType" header.Type_
        | _ => [])

/-- The transport-specific parameters of transport kind `ws`: `path`, `host`. -/
def wsParams (streamSettings : StreamConfig) : List (String × String) :=
  match streamSettings.WSSettings with
  | none => []
  | some wsSettings => paramIfSet "path" wsSettings.Path ++ paramIfSet "host" wsSettings.Host

/-- The transport-specific parameters of transport kind `grpc`: `mode`,
`serviceName`, `authority`. -/
def grpcParams (streamSettings : StreamConfig) : List (String × String) :=
  match streamSettings.GRPCSettings with
  | none => []
  | some grpcSettings =>
    ("mode", if grpcSettings.MultiMode then "multi" else "gun") ::
      (paramIfSet "serviceName" grpcSettings.ServiceName ++
        paramIfSet "authority" grpcSettings.Authority)

/-- The transport-specific parameters of transport kind `httpupgrade`:
`host`, `path`. -/
def httpupgradeParams (streamSettings : StreamConfig) : List (String × String) :=
  match streamSettings.HTTPUPGRADESettings with
  | none => []
  | some httpupgradeSettings =>
    paramIfSet "host" httpupgradeSettings.Host ++ paramIfSet "path" httpupgradeSettings.Path

/-- The `extra` parameter of transport kind `xhttp`: the re-serialized extra
blob, when the blob is present, decodes and re-serializes. -/
def extraParam (env : Env) (extra : Option RawMessage) : List (String × String) :=
  match extra with
  | none => []
  | some blob =>
    match env.unmarshalSplitHTTP blob with
    | .error _ => []
    | .ok extraConfig =>
      match env.marshalSplitHTTP extraConfig with
      | .error _ => []
      | .ok extraBytes => [("extra", extraBytes)]

/-- The transport-specific parameters of transport kind `xhttp`: `host`,
`path`, `mode`, `extra`. -/
def xhttpParams (env : Env) (streamSettings : StreamConfig) : List (String × String) :=
  match streamSettings.XHTTPSettings with
  | none => []
  | some xhttpSettings =>
    paramIfSet "host" xhttpSettings.Host ++ paramIfSet "path" xhttpSettings.Path ++
      paramIfSet "mode" xhttpSettings.Mode ++ extraParam env xhttpSettings.Extra

/-- The transport section of the query: the parameters of the transport kind
of the block, and nothing for any other kind. -/
def transportParams (env : Env) (streamSettings : StreamConfig) : List (String × String) :=
  if networkOf streamSettings = "raw" then rawParams env streamSettings
  else if networkOf streamSettings = "kcp" then kcpParams env streamSettings
  else if networkOf streamSettings = "ws" then wsParams streamSettings
  else if networkOf streamSettings = "grpc" then grpcParams streamSettings
  else if networkOf streamSettings = "httpupgrade" then httpupgradeParams streamSettings
  else if networkOf streamSettings = "xhttp" then xhttpParams env streamSettings
  else []

/-- The security-specific parameters of security kind `tls`: `fp`, `sni`,
`alpn`, `allowInsecure`. -/
def tlsParams (streamSettings : StreamConfig) : List (String × String) :=
  match streamSettings.TLSSettings with
  | none => []
  | some tlsSettings =>
    paramIfSet "fp" tlsSettings.Fingerprint ++ paramIfSet "sni" tlsSettings.ServerName ++
      (match tlsSettings.ALPN with
        | some alpn => paramIfAny "alpn" alpn
        | none => []) ++
      (if tlsSettings.Insecure then [("allowInsecure", "1")] else [])

/-- The security-specific parameters of security kind `reality`: `fp`, `sni`,
`pbk`, `sid`, `pqv`, `spx`. -/
def realityParams (streamSettings : StreamConfig) : List (String × String) :=
  match streamSettings.REALITYSettings with
  | none => []
  | some realitySettings =>
    paramIfSet "fp" realitySettings.Fingerprint ++ paramIfSet "sni" realitySettings.ServerName ++
      paramIfSet "pbk" realitySettings.Password ++ paramIfSet "sid" realitySettings.ShortId ++
      paramIfSet "pqv" realitySettings.Mldsa65Verify ++ paramIfSet "spx" realitySettings.SpiderX

/-- The security section of the query: the parameters of the security kind of
the block, and nothing for any other kind. -/
def securityParams (streamSettings : StreamConfig) : List (String × String) :=
  if streamSettings.Security = "tls" then tlsParams streamSettings
  else if streamSettings.Security = "reality" then realityParams streamSettings
  else []

/-- The parameters that `streamSettingsQuery` appends for a transport settings
block: `type`, `security`, the transport section, the security section. -/
def streamParams (env : Env) (streamSettings : StreamConfig) : List (String × String) :=
  ("type", networkOf streamSettings) :: ("security", securityOf streamSettings) ::
    (transportParams env streamSettings ++ securityParams streamSettings)

/-- The block as `streamSettingsQuery` leaves it: an empty security kind is
overwritten with `none`. -/
def withDefaultSecurity (streamSettings : StreamConfig) : StreamConfig :=
  { streamSettings with Security := securityOf streamSettings }

/-- Every key of the parameter list is among `keys`. -/
def KeysIn (keys : List String) (params : List (String × String)) : Prop :=
  ∀ p ∈ params, p.1 ∈ keys

/-- The keys of a parameter list, in order. -/
def keysOf (params : List (String × String)) : List String :=
  params.map Prod.fst

/-- One rendered parameter: the key, `=`, and the query-escaped value. -/
def renderParam (p : String × String) : String :=
  p.1 ++ "=" ++ QueryEscape p.2

/-- The protocol section of the query: `encryption` for vmess, `flow` then
`encryption` for vless, each when non-empty, and nothing for the other
protocols. -/
def protocolParams (env : Env) (proxy : OutboundDetourConfig) : List (String × String) :=
  match proxy.Settings with
  | none => []
  | some raw =>
    if proxy.Protocol = "vmess" then
      match env.unmarshalVMess raw with
      | .ok (some settings) => paramIfSet "encryption" settings.Security
      | _ => []
    else if proxy.Protocol = "vless" then
      match env.unmarshalVLess raw with
      | .ok (some settings) =>
        paramIfSet "flow" settings.Flow ++ paramIfSet "encryption" settings.Encryption
      | _ => []
    else []

/-- All parameters of the query of a link, in order: the protocol section,
then what `streamSettingsQuery` appends for the transport settings block, if
there is one. -/
def linkParams (env : Env) (proxy : OutboundDetourConfig) : List (String × String) :=
  protocolParams env proxy ++
    (match proxy.StreamSetting with
      | none => []
      | some streamSettings => streamParams env streamSettings)

/-- The keys of the transport section in emission order, one list per
transport kind (raw, kcp, ws, grpc, httpupgrade, xhttp) and the empty list
for any other kind. -/
def transportKeyOrders : List (List String) :=
  [["headerType", "path", "host"], ["seed", "headerType"], ["path", "host"],
    ["mode", "serviceName", "authority"], ["host", "path"], ["host", "path", "mode", "extra"], []]

/-- The keys of the security section in emission order, one list per security
kind (tls, reality) and the empty list for any other kind. -/
def securityKeyOrders : List (List String) :=
  [["fp", "sni", "alpn", "allowInsecure"], ["fp", "sni", "pbk", "sid", "pqv", "spx"], []]

/-- The line a descriptor contributes to the output: the serialized link when
`shareLink` returns without error, and nothing otherwise. -/
def emittedLine (env : Env) (outbound : OutboundDetourConfig) : Option String :=
  match shareLink env outbound with
  | .ret (_, .ok link) => some link.String
  | _ => none

/-- The error of a failed `json.Unmarshal`, if it failed. -/
def errorOf {α : Type} : Except String α → Option String
  | .error err => some err
  | .ok _ => none

/-- The error with which the protocol-specific settings blob of a descriptor
fails to decode, if it does: the blob is present, the protocol is a supported
one, and `json.Unmarshal` into the settings type of that protocol fails. -/
def settingsDecodeError (env : Env) (proxy : OutboundDetourConfig) : Option String :=
  match proxy.Settings with
  | none => none
  | some raw =>
    if proxy.Protocol = "shadowsocks" then errorOf (env.unmarshalShadowsocks raw)
    else if proxy.Protocol = "vmess" then errorOf (env.unmarshalVMess raw)
    else if proxy.Protocol = "vless" then errorOf (env.unmarshalVLess raw)
    else if proxy.Protocol = "socks" then errorOf (env.unmarshalSocks raw)
    else if proxy.Protocol = "trojan" then errorOf (env.unmarshalTrojan raw)
    else none

/-- A row of the per-protocol field-mapping table: the scheme, the host
`<address>:<port>`, the userinfo, the query parameters that precede the
transport section, and the display name. -/
def tableRow (scheme : String) (address : Option String) (port : Nat) (userinfo : String)
    (params : List (String × String)) (name : String) : URL :=
  { Scheme := scheme
    User := some (User userinfo)
    Host := sprintHost address port
    RawQuery := addQueries "" params
    Fragment := name }

/-- What `shareLink` returns once the base link is built: the outcome of
`streamSettingsQuery` on that link, returned with a nil error. -/
def withStreamSettings (env : Env) (proxy : OutboundDetourConfig) (base : URL) :
    Run (OutboundDetourConfig × Except String URL) :=
  match streamSettingsQuery env proxy base with
  | .panic msg => .panic msg
  | .ret (proxy, shareUrl) => .ret (proxy, .ok shareUrl)

/-! ## A concrete environment for examples -/

/-- A decoder given by a finite table of blobs: a listed blob decodes to its
entry, the JSON value `null` leaves the pointer nil, and any other blob is a
decoding error. -/
def lookupBlob {α : Type} (table : List (Bytes × α)) (raw : Bytes) : Except String (Option α) :=
  match table.lookup raw with
  | some a => .ok (some a)
  | none => if raw = utf8 "null" then .ok none else .error "json: cannot unmarshal"

/-- Settings blob `{"address":"example.com","port":443,"id":"uuid-1","flow":"xtls-rprx-vision"}`. -/
def vlessBlob : RawMessage :=
  utf8 "\x7b\"address\":\"example.com\",\"port\":443,\"id\":\"uuid-1\",\"flow\":\"xtls-rprx-vision\"\x7d"

/-- Settings blob `{"address":"t.example.com","port":8443,"password":"secret"}`. -/
def trojanBlob : RawMessage :=
  utf8 "\x7b\"address\":\"t.example.com\",\"port\":8443,\"password\":\"secret\"\x7d"

/-- Settings blob `{"address":"10.0.0.1","port":8388,"method":"aes-256-gcm","password":"pass"}`. -/
def shadowsocksBlob : RawMessage :=
  utf8 "\x7b\"address\":\"10.0.0.1\",\"port\":8388,\"method\":\"aes-256-gcm\",\"password\":\"pass\"\x7d"

/-- Settings blob `{"address":"v.example.com","port":10086,"id":"uuid-2","security":"auto"}`. -/
def vmessBlob : RawMessage :=
  utf8 "\x7b\"address\":\"v.example.com\",\"port\":10086,\"id\":\"uuid-2\",\"security\":\"auto\"\x7d"

/-- Settings blob `{"address":"s.example.com","port":1080,"user":"alice","pass":"pw"}`. -/
def socksBlob : RawMessage :=
  utf8 "\x7b\"address\":\"s.example.com\",\"port\":1080,\"user\":\"alice\",\"pass\":\"pw\"\x7d"

/-- The JSON number `7`, which is no settings object of any protocol. -/
def badBlob : RawMessage := utf8 "7"

/-- Document `{"outbounds":[]}`. -/
def docEmpty : Bytes := utf8 "\x7b\"outbounds\":[]\x7d"

/-- Document `{"outbounds":[{"protocol":"freedom"}]}`. -/
def docFreedom : Bytes := utf8 "\x7b\"outbounds\":[\x7b\"protocol\":\"freedom\"\x7d]\x7d"

/-- Document `{"outbounds":[{"protocol":"blackhole","streamSettings":{"network":"ws"}}]}`. -/
def docBlackhole : Bytes :=
  utf8 "\x7b\"outbounds\":[\x7b\"protocol\":\"blackhole\",\"streamSettings\":\x7b\"network\":\"ws\"\x7d\x7d]\x7d"

/-- The vless outbound `{"protocol":"vless","tag":"a","settings":<vlessBlob>}`. -/
def vlessOutbound : OutboundDetourConfig :=
  { Protocol := "vless", Tag := "a", Settings := some vlessBlob }

/-- The socks outbound `{"protocol":"socks","tag":"b","settings":7}`, whose
settings do not decode. -/
def brokenOutbound : OutboundDetourConfig :=
  { Protocol := "socks", Tag := "b", Settings := some badBlob }

/-- The trojan outbound `{"protocol":"trojan","tag":"c","settings":<trojanBlob>}`. -/
def trojanOutbound : OutboundDetourConfig :=
  { Protocol := "trojan", Tag := "c", Settings := some trojanBlob }

/-- Document with the three outbounds `vlessOutbound`, `brokenOutbound`,
`trojanOutbound`:
`{"outbounds":[{"protocol":"vless","tag":"a","settings":<vlessBlob>},
{"protocol":"socks","tag":"b","settings":7},
{"protocol":"trojan","tag":"c","settings":<trojanBlob>}]}` (on one line). -/
def docMixed : Bytes :=
  utf8 "\x7b\"outbounds\":[\x7b\"protocol\":\"vless\",\"tag\":\"a\",\"settings\":\x7b\"address\":\"example.com\",\"port\":443,\"id\":\"uuid-1\",\"flow\":\"xtls-rprx-vision\"\x7d\x7d,\x7b\"protocol\":\"socks\",\"tag\":\"b\",\"settings\":7\x7d,\x7b\"protocol\":\"trojan\",\"tag\":\"c\",\"settings\":\x7b\"address\":\"t.example.com\",\"port\":8443,\"password\":\"secret\"\x7d\x7d]\x7d"

/-- Document with the two outbounds `vlessOutbound`, `trojanOutbound`:
`docMixed` without its second outbound. -/
def docPair : Bytes :=
  utf8 "\x7b\"outbounds\":[\x7b\"protocol\":\"vless\",\"tag\":\"a\",\"settings\":\x7b\"address\":\"example.com\",\"port\":443,\"id\":\"uuid-1\",\"flow\":\"xtls-rprx-vision\"\x7d\x7d,\x7b\"protocol\":\"trojan\",\"tag\":\"c\",\"settings\":\x7b\"address\":\"t.example.com\",\"port\":8443,\"password\":\"secret\"\x7d\x7d]\x7d"

/-- The vless outbound
`{"protocol":"vless","settings":<vlessBlob>,"streamSettings":{"rawSettings":{"header":null}}}`:
the header member is a `json.RawMessage`, which receives the bytes `null`. -/
def nullHeaderOutbound : OutboundDetourConfig :=
  { Protocol := "vless"
    Settings := some vlessBlob
    StreamSetting := some { RAWSettings := some { HeaderConfig := some (utf8 "null") } } }

/-- Document with the single outbound `nullHeaderOutbound`. -/
def docNullHeader : Bytes :=
  utf8 "\x7b\"outbounds\":[\x7b\"protocol\":\"vless\",\"settings\":\x7b\"address\":\"example.com\",\"port\":443,\"id\":\"uuid-1\",\"flow\":\"xtls-rprx-vision\"\x7d,\"streamSettings\":\x7b\"rawSettings\":\x7b\"header\":null\x7d\x7d\x7d]\x7d"

/-- The decoded form of `shadowsocksBlob`. -/
def shadowsocksSettings : ShadowsocksClientConfig :=
  { Address := some "10.0.0.1", Port := 8388, Cipher := "aes-256-gcm", Password := "pass" }

/-- The decoded form of `vmessBlob`. -/
def vmessSettings : VMessOutboundConfig :=
  { Address := some "v.example.com", Port := 10086, ID := "uuid-2", Security := "auto" }

/-- The decoded form of `vlessBlob`. -/
def vlessSettings : VLessOutboundConfig :=
  { Address := some "example.com", Port := 443, Id := "uuid-1", Flow := "xtls-rprx-vision" }

/-- The decoded form of `socksBlob`. -/
def socksSettings : SocksClientConfig :=
  { Address := some "s.example.com", Port := 1080, Username := "alice", Password := "pw" }

/-- The decoded form of `trojanBlob`. -/
def trojanSettings : TrojanClientConfig :=
  { Address := some "t.example.com", Port := 8443, Password := "secret" }

/-- The shadowsocks outbound `{"protocol":"shadowsocks","settings":<shadowsocksBlob>}`. -/
def shadowsocksOutbound : OutboundDetourConfig :=
  { Protocol := "shadowsocks", Settings := some shadowsocksBlob }

/-- The vmess outbound `{"protocol":"vmess","settings":<vmessBlob>}`. -/
def vmessOutbound : OutboundDetourConfig :=
  { Protocol := "vmess", Settings := some vmessBlob }

/-- The socks outbound `{"protocol":"socks","settings":<socksBlob>}`. -/
def socksOutbound : OutboundDetourConfig :=
  { Protocol := "socks", Settings := some socksBlob }

/-- The transport settings block
`{"network":"ws","security":"tls","wsSettings":{"path":"/p","host":"h.example.com"},
"tlsSettings":{"serverName":"h.example.com"}}`. -/
def wsTlsStream : StreamConfig :=
  { Network := some "ws"
    Security := "tls"
    WSSettings := some { Path := "/p", Host := "h.example.com" }
    TLSSettings := some { ServerName := "h.example.com" } }

/-- A vless outbound over ws with tls: `vlessBlob` with the block `wsTlsStream`. -/
def wsTlsOutbound : OutboundDetourConfig :=
  { Protocol := "vless", Settings := some vlessBlob, StreamSetting := some wsTlsStream }

/-- The transport settings block `{"network":"grpc"}`: no grpc settings. -/
def grpcBareStream : StreamConfig := { Network := some "grpc" }

/-- A vless outbound over grpc without a grpc settings block. -/
def grpcBareOutbound : OutboundDetourConfig :=
  { Protocol := "vless", Settings := some vlessBlob, StreamSetting := some grpcBareStream }

/-- The transport settings block `{"network":"grpc","grpcSettings":{}}`: a
grpc settings block with no field set. -/
def grpcStream : StreamConfig := { Network := some "grpc", GRPCSettings := some {} }

/-- A vless outbound over grpc with an empty grpc settings block. -/
def grpcOutbound : OutboundDetourConfig :=
  { Protocol := "vless", Settings := some vlessBlob, StreamSetting := some grpcStream }

/-- The outbound `{"protocol":"freedom"}` of `docFreedom`. -/
def freedomOutbound : OutboundDetourConfig := { Protocol := "freedom" }

/-- The outbound `{"protocol":"blackhole","streamSettings":{"network":"ws"}}`
of `docBlackhole`. -/
def blackholeOutbound : OutboundDetourConfig :=
  { Protocol := "blackhole", StreamSetting := some { Network := some "ws" } }

/-- Document with the single outbound `wsTlsOutbound`:
`{"outbounds":[{"protocol":"vless","settings":<vlessBlob>,"streamSettings":<wsTlsStream>}]}`. -/
def docExample : Bytes :=
  utf8 "\x7b\"outbounds\":[\x7b\"protocol\":\"vless\",\"settings\":\x7b\"address\":\"example.com\",\"port\":443,\"id\":\"uuid-1\",\"flow\":\"xtls-rprx-vision\"\x7d,\"streamSettings\":\x7b\"network\":\"ws\",\"security\":\"tls\",\"wsSettings\":\x7b\"path\":\"/p\",\"host\":\"h.example.com\"\x7d,\"tlsSettings\":\x7b\"serverName\":\"h.example.com\"\x7d\x7d\x7d]\x7d"

/-- The transport settings block of a ws transport with tls, fingerprint and
server name set: `{"network":"ws","security":"tls",
"wsSettings":{"path":"/p q","host":"h.example.com"},
"tlsSettings":{"serverName":"h.example.com","fingerprint":"chrome"}}`. -/
def wsFullStream : StreamConfig :=
  { Network := some "ws"
    Security := "tls"
    WSSettings := some { Path := "/p q", Host := "h.example.com" }
    TLSSettings := some { ServerName := "h.example.com", Fingerprint := "chrome" } }

/-- A vless outbound with the block `wsFullStream`. -/
def wsFullOutbound : OutboundDetourConfig :=
  { Protocol := "vless", Settings := some vlessBlob, StreamSetting := some wsFullStream }

/-- The tls settings `{"serverName":"h.example.com","fingerprint":"chrome",
"alpn":["h2","http/1.1"],"allowInsecure":true}`. -/
def tlsFull : TLSConfig :=
  { ServerName := "h.example.com"
    Fingerprint := "chrome"
    ALPN := some ["h2", "http/1.1"]
    Insecure := true }

/-- The transport settings block `{"network":"ws","security":"tls","tlsSettings":<tlsFull>}`. -/
def tlsStream : StreamConfig :=
  { Network := some "ws", Security := "tls", TLSSettings := some tlsFull }

/-- A vless outbound with the block `tlsStream`. -/
def tlsOutbound : OutboundDetourConfig :=
  { Protocol := "vless", Settings := some vlessBlob, StreamSetting := some tlsStream }

/-- The reality settings `{"fingerprint":"chrome","serverName":"r.example.com",
"password":"pk","shortId":"01","spiderX":"/"}`. -/
def realityFull : REALITYConfig :=
  { Fingerprint := "chrome"
    ServerName := "r.example.com"
    Password := "pk"
    ShortId := "01"
    SpiderX := "/" }

/-- The transport settings block
`{"network":"ws","security":"reality","realitySettings":<realityFull>}`. -/
def realityStream : StreamConfig :=
  { Network := some "ws", Security := "reality", REALITYSettings := some realityFull }

/-- A vless outbound with the block `realityStream`. -/
def realityOutbound : OutboundDetourConfig :=
  { Protocol := "vless", Settings := some vlessBlob, StreamSetting := some realityStream }

/-- Raw header blob
`{"type":"http","request":{"path":["/a","/b"],"headers":{"Host":["x.example.com","y.example.com"]}}}`. -/
def rawHeaderBlob : RawMessage :=
  utf8 "\x7b\"type\":\"http\",\"request\":\x7b\"path\":[\"/a\",\"/b\"],\"headers\":\x7b\"Host\":[\"x.example.com\",\"y.example.com\"]\x7d\x7d\x7d"

/-- The decoded form of `rawHeaderBlob`. -/
def rawHeaderValue : XrayRawSettingsHeader :=
  { Type_ := "http"
    Request := some
      { Path := ["/a", "/b"]
        Headers := some { Host := ["x.example.com", "y.example.com"] } } }

/-- The transport settings block `{"network":"raw","rawSettings":{"header":<rawHeaderBlob>}}`. -/
def rawHttpStream : StreamConfig :=
  { Network := some "raw", RAWSettings := some { HeaderConfig := some rawHeaderBlob } }

/-- A vless outbound with the block `rawHttpStream`. -/
def rawHttpOutbound : OutboundDetourConfig :=
  { Protocol := "vless", Settings := some vlessBlob, StreamSetting := some rawHttpStream }

/-- The xhttp settings `{"host":"h.example.com","path":"/x","mode":"auto","extra":null}`:
the extra member is a `json.RawMessage`, which receives the bytes `null`. -/
def xhttpNullExtra : SplitHTTPConfig :=
  { Host := "h.example.com", Path := "/x", Mode := "auto", Extra := some (utf8 "null") }

/-- The transport settings block `{"network":"xhttp","xhttpSettings":<xhttpNullExtra>}`. -/
def xhttpStream : StreamConfig :=
  { Network := some "xhttp", XHTTPSettings := some xhttpNullExtra }

/-- A vless outbound with the block `xhttpStream`. -/
def xhttpOutbound : OutboundDetourConfig :=
  { Protocol := "vless", Settings := some vlessBlob, StreamSetting := some xhttpStream }

/-- The transport settings block `{"network":"xhttp","xhttpSettings":
{"host":"h.example.com","path":"/x","mode":"auto","extra":7}}`, whose extra
blob does not decode. -/
def xhttpBadExtraStream : StreamConfig :=
  { Network := some "xhttp"
    XHTTPSettings := some { xhttpNullExtra with Extra := some badBlob } }

/-- A vless outbound with the block `xhttpBadExtraStream`. -/
def xhttpBadExtraOutbound : OutboundDetourConfig :=
  { Protocol := "vless", Settings := some vlessBlob, StreamSetting := some xhttpBadExtraStream }

/-- The transport settings block `{"network":"tcp","security":"xtls",
"wsSettings":{"path":"/p"},"tlsSettings":{"serverName":"h.example.com"}}`:
neither kind is one the code knows. -/
def unknownKindsStream : StreamConfig :=
  { Network := some "tcp"
    Security := "xtls"
    WSSettings := some { Path := "/p" }
    TLSSettings := some { ServerName := "h.example.com" } }

/-- A vless outbound with the block `unknownKindsStream`. -/
def unknownKindsOutbound : OutboundDetourConfig :=
  { Protocol := "vless", Settings := some vlessBlob, StreamSetting := some unknownKindsStream }

/-- The transport settings block `{"network":"websocket","security":"tls",
"tlsSettings":{"serverName":"h.example.com"}}`: an unrecognized transport
kind with a recognized security kind. -/
def websocketTlsStream : StreamConfig :=
  { Network := some "websocket"
    Security := "tls"
    TLSSettings := some { ServerName := "h.example.com" } }

/-- A vless outbound with the block `websocketTlsStream`. -/
def websocketTlsOutbound : OutboundDetourConfig :=
  { Protocol := "vless", Settings := some vlessBlob, StreamSetting := some websocketTlsStream }

/-- The transport settings block `{"network":"ws"}`: the security kind is
left empty. -/
def plainStream : StreamConfig := { Network := some "ws" }

/-- A vless outbound with the block `plainStream`. -/
def plainOutbound : OutboundDetourConfig :=
  { Protocol := "vless", Settings := some vlessBlob, StreamSetting := some plainStream }

/-- The descriptor `plainOutbound` after `streamSettingsQuery` ran on it: the
security kind of its block reads `none`. -/
def plainOutboundAfter : OutboundDetourConfig :=
  { Protocol := "vless"
    Settings := some vlessBlob
    StreamSetting := some { Network := some "ws", Security := "none" } }

/-- Document with the outbounds `vlessOutbound`, `freedomOutbound`, in this order:
`{"outbounds":[{"protocol":"vless","tag":"a","settings":<vlessBlob>},{"protocol":"freedom"}]}`. -/
def docTrailing : Bytes :=
  utf8 "\x7b\"outbounds\":[\x7b\"protocol\":\"vless\",\"tag\":\"a\",\"settings\":\x7b\"address\":\"example.com\",\"port\":443,\"id\":\"uuid-1\",\"flow\":\"xtls-rprx-vision\"\x7d\x7d,\x7b\"protocol\":\"freedom\"\x7d]\x7d"

/-- Document with the outbounds `freedomOutbound`, `vlessOutbound`, in this order:
`{"outbounds":[{"protocol":"freedom"},{"protocol":"vless","tag":"a","settings":<vlessBlob>}]}`. -/
def docLeading : Bytes :=
  utf8 "\x7b\"outbounds\":[\x7b\"protocol\":\"freedom\"\x7d,\x7b\"protocol\":\"vless\",\"tag\":\"a\",\"settings\":\x7b\"address\":\"example.com\",\"port\":443,\"id\":\"uuid-1\",\"flow\":\"xtls-rprx-vision\"\x7d\x7d]\x7d"

/-- An environment over finite tables, for running the code on concrete
inputs.  The display name is the tag, or the protocol for an empty tag.  The
table of xhttp extra blobs is empty, so the only extra value this environment
decodes, and the only one it re-serializes, is the nil pointer (to `null`). -/
def demoEnv : Env where
  unmarshalConfig := lookupBlob [
    (docEmpty, { OutboundConfigs := [] }),
    (docFreedom, { OutboundConfigs := [freedomOutbound] }),
    (docBlackhole, { OutboundConfigs := [blackholeOutbound] }),
    (docMixed, { OutboundConfigs := [vlessOutbound, brokenOutbound, trojanOutbound] }),
    (docPair, { OutboundConfigs := [vlessOutbound, trojanOutbound] }),
    (docNullHeader, { OutboundConfigs := [nullHeaderOutbound] }),
    (docExample, { OutboundConfigs := [wsTlsOutbound] }),
    (docTrailing, { OutboundConfigs := [vlessOutbound, freedomOutbound] }),
    (docLeading, { OutboundConfigs := [freedomOutbound, vlessOutbound] })]
  unmarshalShadowsocks := lookupBlob [(shadowsocksBlob, shadowsocksSettings)]
  unmarshalVMess := lookupBlob [(vmessBlob, vmessSettings)]
  unmarshalVLess := lookupBlob [(vlessBlob, vlessSettings)]
  unmarshalSocks := lookupBlob [(socksBlob, socksSettings)]
  unmarshalTrojan := lookupBlob [(trojanBlob, trojanSettings)]
  unmarshalRawHeader := lookupBlob [(rawHeaderBlob, rawHeaderValue)]
  unmarshalFakeHeader := lookupBlob []
  unmarshalSplitHTTP := lookupBlob []
  marshalSplitHTTP := fun extraConfig =>
    match extraConfig with
    | none => .ok "null"
    | some _ => .error "json: value outside the tables of this environment"
  getOutboundName := fun proxy => if len proxy.Tag > 0 then proxy.Tag else proxy.Protocol

/-! ## Basic facts: strings and base64 -/

theorem utf8Char_ne_nil (c : Char) : utf8Char c ≠ [] := by
  unfold utf8Char
  simp only
  split_ifs <;> simp

theorem utf8Char_lt (c : Char) : ∀ b ∈ utf8Char c, b < 256 := by
  have hv : c.toNat < 0x110000 := by
    have h := c.valid
    simp only [UInt32.isValidChar, Nat.isValidChar] at h
    have : c.toNat = c.val.toNat := rfl
    omega
  intro b hb
  unfold utf8Char at hb
  simp only at hb
  split_ifs at hb <;> simp at hb <;> omega

theorem utf8_lt (s : String) : ∀ b ∈ utf8 s, b < 256 := by
  intro b hb
  simp only [utf8, List.mem_flatMap] at hb
  obtain ⟨c, _, hc⟩ := hb
  exact utf8Char_lt c b hc

theorem len_eq_zero_iff (s : String) : len s = 0 ↔ s = "" := by
  obtain ⟨l⟩ := s
  cases l with
  | nil => simp [len, utf8]
  | cons c cs =>
    have h := utf8Char_ne_nil c
    simp [len, utf8, h]
    intro hc
    exact absurd (congrArg String.data hc) (by simp)

theorem len_pos_iff (s : String) : 0 < len s ↔ s ≠ "" := by
  have := len_eq_zero_iff s
  constructor
  · intro h e; have := this.2 e; omega
  · intro h; have : len s ≠ 0 := fun e => h (this.1 e)
    omega

theorem decodeStd_encodeStd : ∀ n, n < 64 → decodeStd (encodeStd n) = some n := by decide

theorem encodeStd_ne : ∀ n, n < 64 →
    encodeStd n ≠ '=' ∧ encodeStd n ≠ '\r' ∧ encodeStd n ≠ '\n' := by decide

theorem encodeQuanta_clean (src : Bytes) :
    ∀ c ∈ encodeQuanta src, c ≠ '\r' ∧ c ≠ '\n' := by
  induction src using encodeQuanta.induct with
  | case1 => simp [encodeQuanta]
  | case2 a =>
    intro c hc
    simp only [encodeQuanta, List.mem_cons, List.mem_singleton, List.not_mem_nil, or_false] at hc
    rcases hc with h | h | h | h
    · subst h; exact (encodeStd_ne _ (Nat.mod_lt _ (by decide))).2
    · subst h; exact (encodeStd_ne _ (Nat.mod_lt _ (by decide))).2
    · subst h; decide
    · subst h; decide
  | case3 a b =>
    intro c hc
    simp only [encodeQuanta, List.mem_cons, List.mem_singleton, List.not_mem_nil, or_false] at hc
    rcases hc with h | h | h | h
    · subst h; exact (encodeStd_ne _ (Nat.mod_lt _ (by decide))).2
    · subst h; exact (encodeStd_ne _ (Nat.mod_lt _ (by decide))).2
    · subst h; exact (encodeStd_ne _ (Nat.mod_lt _ (by decide))).2
    · subst h; decide
  | case4 a b c rest ih =>
    intro x hx
    simp only [encodeQuanta, List.mem_cons] at hx
    rcases hx with h | h | h | h | h
    · subst h; exact (encodeStd_ne _ (Nat.mod_lt _ (by decide))).2
    · subst h; exact (encodeStd_ne _ (Nat.mod_lt _ (by decide))).2
    · subst h; exact (encodeStd_ne _ (Nat.mod_lt _ (by decide))).2
    · subst h; exact (encodeStd_ne _ (Nat.mod_lt _ (by decide))).2
    · exact ih x h

theorem decodeQuanta_encodeQuanta (src : Bytes) (hsrc : ∀ b ∈ src, b < 256) :
    decodeQuanta (encodeQuanta src) = some src := by
  induction src using encodeQuanta.induct with
  | case1 => simp [encodeQuanta, decodeQuanta]
  | case2 a =>
    have ha : a < 256 := hsrc a (by simp)
    simp only [encodeQuanta, decodeQuanta, decodeStd_encodeStd _ (Nat.mod_lt _ (by decide : 64 > 0))]
    simp
    omega
  | case3 a b =>
    have ha : a < 256 := hsrc a (by simp)
    have hb : b < 256 := hsrc b (by simp)
    have h2 := (encodeStd_ne ((a * 65536 + b * 256) / 64 % 64) (Nat.mod_lt _ (by decide))).1
    simp only [encodeQuanta, decodeQuanta, decodeStd_encodeStd _ (Nat.mod_lt _ (by decide : 64 > 0))]
    simp [h2]
    omega
  | case4 a b c rest ih =>
    have ha : a < 256 := hsrc a (by simp)
    have hb : b < 256 := hsrc b (by simp)
    have hc : c < 256 := hsrc c (by simp)
    have hrest : ∀ x ∈ rest, x < 256 := fun x hx => hsrc x (by simp [hx])
    have h3 := (encodeStd_ne ((a * 65536 + b * 256 + c) % 64) (Nat.mod_lt _ (by decide))).1
    simp only [encodeQuanta, decodeQuanta, decodeStd_encodeStd _ (Nat.mod_lt _ (by decide : 64 > 0)),
      ih hrest]
    simp [h3]
    omega

theorem DecodeString_EncodeToString (src : Bytes) (hsrc : ∀ b ∈ src, b < 256) :
    DecodeString (EncodeToString src) = some src := by
  unfold DecodeString EncodeToString
  have hf : (encodeQuanta src).filter (fun c => c ≠ '\r' ∧ c ≠ '\n') = encodeQuanta src := by
    rw [List.filter_eq_self]
    intro c hc
    simpa using encodeQuanta_clean src c hc
  simp only [hf]
  exact decodeQuanta_encodeQuanta src hsrc

/-! ## The loop over the outbounds -/

theorem collectLinks_ret (env : Env) (outbounds : List OutboundDetourConfig) :
    ∀ (links result : List String), collectLinks env outbounds links = .ret result →
      result = links ++ outbounds.filterMap (emittedLine env) := by
  induction outbounds with
  | nil => intro links result h; simp [collectLinks] at h; simp [h]
  | cons d ds ih =>
    intro links result h
    unfold collectLinks at h
    split at h
    · simp at h
    · next _ link heq =>
      have := ih _ _ h
      simp [this, emittedLine, heq]
    · next _ err heq =>
      have := ih _ _ h
      simp [this, emittedLine, heq]

theorem shareLink_error_fst (env : Env) (proxy p : OutboundDetourConfig) (err : String)
    (h : shareLink env proxy = .ret (p, .error err)) : p = proxy := by
  unfold shareLink at h
  simp only at h
  split at h
  · simp at h
  · simp at h; exact h.1.symm
  · split at h <;> simp at h

theorem collectLinks_returns (env : Env) (outbounds : List OutboundDetourConfig) :
    ∀ (links result : List String), collectLinks env outbounds links = .ret result →
      ∀ d ∈ outbounds, ∃ r, shareLink env d = .ret r := by
  induction outbounds with
  | nil => intro _ _ _ d hd; simp at hd
  | cons o os ih =>
    intro links result h d hd
    unfold collectLinks at h
    rcases List.mem_cons.1 hd with rfl | hd
    · split at h
      · simp at h
      · next heq => exact ⟨_, heq⟩
      · next heq => exact ⟨_, heq⟩
    · split at h
      · simp at h
      · exact ih _ _ h d hd
      · exact ih _ _ h d hd

theorem collectLinks_all_fail (env : Env) (outbounds : List OutboundDetourConfig)
    (h : ∀ d ∈ outbounds, ∃ err, shareLink env d = .ret (d, .error err)) (links : List String) :
    collectLinks env outbounds links = .ret links := by
  induction outbounds with
  | nil => simp [collectLinks]
  | cons o os ih =>
    obtain ⟨err, he⟩ := h o (by simp)
    unfold collectLinks
    rw [he]
    exact ih (fun d hd => h d (by simp [hd]))

theorem collectLinks_skip (env : Env) (d : OutboundDetourConfig) (err : String)
    (hd : shareLink env d = .ret (d, .error err)) (before after : List OutboundDetourConfig) :
    ∀ links,
      collectLinks env (before ++ d :: after) links = collectLinks env (before ++ after) links := by
  induction before with
  | nil => intro links; simp [collectLinks, hd]
  | cons o os ih =>
    intro links
    simp only [List.cons_append, collectLinks]
    split <;> simp [ih]

theorem emittedLine_eq_none_iff (env : Env) (d : OutboundDetourConfig)
    (h : ∃ r, shareLink env d = .ret r) :
    emittedLine env d = none ↔ ∃ err, shareLink env d = .ret (d, .error err) := by
  obtain ⟨⟨p, r⟩, hr⟩ := h
  cases r with
  | error e =>
    have := shareLink_error_fst env d p e hr
    subst this
    simp [emittedLine, hr]
  | ok l => simp [emittedLine, hr]

theorem convert_error_iff (env : Env) (xrayBytes : Bytes) (xray : Config)
    (hdec : env.unmarshalConfig xrayBytes = .ok (some xray)) :
    ConvertXrayJsonToShareLinks env xrayBytes = .ret ("", some "no valid outbounds") ↔
      ∀ d ∈ xray.OutboundConfigs, ∃ err, shareLink env d = .ret (d, .error err) := by
  unfold ConvertXrayJsonToShareLinks
  simp only [hdec]
  constructor
  · intro h
    split_ifs at h with h0
    · intro d hd
      simp at h0
      simp [h0] at hd
    · split at h
      · simp at h
      · next links hl =>
        have hret := collectLinks_returns env _ _ _ hl
        have hlinks := collectLinks_ret env _ _ _ hl
        split_ifs at h with h1
        · intro d hd
          simp at h1
          rw [h1] at hlinks
          simp at hlinks
          exact (emittedLine_eq_none_iff env d (hret d hd)).1 (hlinks d hd)
        · simp at h
  · intro h
    split_ifs with h0
    · rfl
    · rw [collectLinks_all_fail env _ h]
      simp

theorem shareLink_of_settingsDecodeError (env : Env) (proxy : OutboundDetourConfig) (err : String)
    (h : settingsDecodeError env proxy = some err) :
    shareLink env proxy = .ret (proxy, .error err) := by
  unfold settingsDecodeError at h
  split at h
  · simp at h
  · next raw hraw =>
    unfold shareLink protocolSwitch
    split_ifs at h with h1 h2 h3 h4 h5
    · simp only [h1, if_true, shadowsocksLink, hraw]
      cases hd : env.unmarshalShadowsocks raw with
      | error e => simp [hd, errorOf] at h; simp [h]
      | ok v => simp [hd, errorOf] at h
    · simp only [h1, h2, if_true, if_false, vmessLink, hraw]
      cases hd : env.unmarshalVMess raw with
      | error e => simp [hd, errorOf] at h; simp [h]
      | ok v => simp [hd, errorOf] at h
    · simp only [h1, h2, h3, if_true, if_false, vlessLink, hraw]
      cases hd : env.unmarshalVLess raw with
      | error e => simp [hd, errorOf] at h; simp [h]
      | ok v => simp [hd, errorOf] at h
    · simp only [h1, h2, h3, h4, if_true, if_false, socksLink, hraw]
      cases hd : env.unmarshalSocks raw with
      | error e => simp [hd, errorOf] at h; simp [h]
      | ok v => simp [hd, errorOf] at h
    · simp only [h1, h2, h3, h4, h5, if_true, if_false, trojanLink, hraw]
      cases hd : env.unmarshalTrojan raw with
      | error e => simp [hd, errorOf] at h; simp [h]
      | ok v => simp [hd, errorOf] at h

theorem shareLink_eq_withStreamSettings (env : Env) (proxy : OutboundDetourConfig) (base : URL)
    (h : protocolSwitch env proxy {} = .ret (.ok base)) :
    shareLink env proxy = withStreamSettings env proxy base := by
  unfold shareLink withStreamSettings
  simp only [h]

/-! ## The query built by `streamSettingsQuery` -/

theorem addQueries_append (q : String) (l1 l2 : List (String × String)) :
    addQueries (addQueries q l1) l2 = addQueries q (l1 ++ l2) := by
  simp [addQueries, List.foldl_append]

theorem addQuery_addQueries (q k v : String) (l : List (String × String)) :
    addQuery (addQueries q l) k v = addQueries q (l ++ [(k, v)]) := by
  simp [addQueries, List.foldl_append]

theorem addQuery_eq_addQueries (q k v : String) : addQuery q k v = addQueries q [(k, v)] := rfl

theorem ite_addQuery (c : Prop) [Decidable c] (q k v : String) :
    (if c then addQuery q k v else q) = addQueries q (if c then [(k, v)] else []) := by
  split_ifs <;> rfl

theorem wsCase_eq (streamSettings : StreamConfig) (query : String) :
    wsCase streamSettings query = addQueries query (wsParams streamSettings) := by
  unfold wsCase wsParams
  split
  · rfl
  · simp only [paramIfSet, ite_addQuery, addQueries_append, len_pos_iff, gt_iff_lt]

theorem grpcCase_eq (streamSettings : StreamConfig) (query : String) :
    grpcCase streamSettings query = addQueries query (grpcParams streamSettings) := by
  unfold grpcCase grpcParams
  split
  · rfl
  · next g _ =>
    have hmode : (if g.MultiMode = true then addQuery query "mode" "multi"
        else addQuery query "mode" "gun") =
        addQueries query [("mode", if g.MultiMode = true then "multi" else "gun")] := by
      split_ifs <;> rfl
    simp only [hmode, paramIfSet, ite_addQuery, addQueries_append, len_pos_iff, gt_iff_lt,
      List.singleton_append, List.cons_append, List.nil_append]

theorem httpupgradeCase_eq (streamSettings : StreamConfig) (query : String) :
    httpupgradeCase streamSettings query = addQueries query (httpupgradeParams streamSettings) := by
  unfold httpupgradeCase httpupgradeParams
  split
  · rfl
  · simp only [paramIfSet, ite_addQuery, addQueries_append, len_pos_iff, gt_iff_lt]

theorem xhttpCase_eq (env : Env) (streamSettings : StreamConfig) (query : String) :
    xhttpCase env streamSettings query = addQueries query (xhttpParams env streamSettings) := by
  unfold xhttpCase xhttpParams
  split
  · rfl
  · next x _ =>
    simp only [paramIfSet, extraParam, ite_addQuery, addQueries_append, len_pos_iff, gt_iff_lt]
    cases x.Extra with
    | none => simp only [List.append_nil]
    | some blob =>
      simp only
      cases env.unmarshalSplitHTTP blob with
      | error e => simp only [List.append_nil]
      | ok extraConfig =>
        simp only
        cases env.marshalSplitHTTP extraConfig with
        | error e => simp only [List.append_nil]
        | ok extraBytes => simp only [addQuery_addQueries]

theorem tlsCase_eq (streamSettings : StreamConfig) (query : String) :
    tlsCase streamSettings query = addQueries query (tlsParams streamSettings) := by
  unfold tlsCase tlsParams
  split
  · rfl
  · next t _ =>
    simp only [paramIfSet, paramIfAny, ite_addQuery, addQueries_append, len_pos_iff, gt_iff_lt,
      List.length_pos]
    cases t.ALPN <;> simp only [ite_addQuery, addQueries_append, List.append_nil, List.append_assoc]

theorem realityCase_eq (streamSettings : StreamConfig) (query : String) :
    realityCase streamSettings query = addQueries query (realityParams streamSettings) := by
  unfold realityCase realityParams
  split
  · rfl
  · simp only [paramIfSet, ite_addQuery, addQueries_append, len_pos_iff, gt_iff_lt]

theorem securitySwitch_eq (streamSettings : StreamConfig) (query : String) :
    securitySwitch streamSettings query = addQueries query (securityParams streamSettings) := by
  unfold securitySwitch securityParams
  split_ifs
  · exact tlsCase_eq _ _
  · exact realityCase_eq _ _
  · rfl

theorem rawCase_eq (env : Env) (streamSettings : StreamConfig) (query : String)
    (h : rawHeaderNull env streamSettings = false) :
    rawCase env streamSettings query = .ret (addQueries query (rawParams env streamSettings)) := by
  unfold rawHeaderNull at h
  unfold rawCase rawParams
  cases hr : streamSettings.RAWSettings with
  | none => rfl
  | some rawSettings =>
    rw [hr] at h
    simp only at h ⊢
    cases hh : rawSettings.HeaderConfig with
    | none => rfl
    | some headerConfig =>
      rw [hh] at h
      simp only at h ⊢
      cases hd : env.unmarshalRawHeader headerConfig with
      | error e => rfl
      | ok decoded =>
        cases decoded with
        | none => rw [hd] at h; simp at h
        | some header =>
          simp only [rawHeaderParams, len_pos_iff, gt_iff_lt]
          split_ifs with ht
          · cases header.Request with
            | none => simp only [addQuery_eq_addQueries]
            | some request =>
              simp only [paramIfAny, ite_addQuery, List.length_pos]
              cases request.Headers with
              | none =>
                simp only [addQuery_eq_addQueries, addQueries_append, List.append_nil,
                  List.singleton_append]
              | some headers =>
                simp only [ite_addQuery, addQuery_eq_addQueries, addQueries_append,
                  List.singleton_append, List.cons_append, List.nil_append]
          · rfl

theorem rawCase_panic (env : Env) (streamSettings : StreamConfig) (query : String)
    (h : rawHeaderNull env streamSettings = true) :
    rawCase env streamSettings query = .panic nilDereference := by
  unfold rawHeaderNull at h
  unfold rawCase
  split
  · next hr => simp [hr] at h
  · next rawSettings hr =>
    simp only [hr] at h
    split
    · next hh => simp [hh] at h
    · next headerConfig hh =>
      simp only [hh] at h
      split
      · next hd => simp [hd] at h
      · rfl
      · next hd => simp [hd] at h

theorem kcpCase_eq (env : Env) (streamSettings : StreamConfig) (query : String)
    (h : kcpHeaderNull env streamSettings = false) :
    kcpCase env streamSettings query = .ret (addQueries query (kcpParams env streamSettings)) := by
  unfold kcpHeaderNull at h
  unfold kcpCase kcpParams
  cases hk : streamSettings.KCPSettings with
  | none => rfl
  | some kcpSettings =>
    rw [hk] at h
    simp only at h ⊢
    cases hh : kcpSettings.HeaderConfig with
    | none =>
      cases kcpSettings.Seed <;>
        simp only [paramIfSet, ite_addQuery, len_pos_iff, gt_iff_lt, List.append_nil, addQueries]
      rfl
    | some headerConfig =>
      rw [hh] at h
      simp only at h ⊢
      cases hd : env.unmarshalFakeHeader headerConfig with
      | error e =>
        cases kcpSettings.Seed <;>
          simp only [paramIfSet, ite_addQuery, len_pos_iff, gt_iff_lt, List.append_nil]
        rfl
      | ok decoded =>
        cases decoded with
        | none => rw [hd] at h; simp at h
        | some header =>
          cases kcpSettings.Seed <;>
            simp only [paramIfSet, ite_addQuery, len_pos_iff, gt_iff_lt, List.nil_append] <;>
            split_ifs
          all_goals rfl

theorem kcpCase_panic (env : Env) (streamSettings : StreamConfig) (query : String)
    (h : kcpHeaderNull env streamSettings = true) :
    kcpCase env streamSettings query = .panic nilDereference := by
  unfold kcpHeaderNull at h
  unfold kcpCase
  split
  · next hr => simp [hr] at h
  · next kcpSettings hr =>
    simp only [hr] at h
    simp only
    split
    · next hh => simp [hh] at h
    · next headerConfig hh =>
      simp only [hh] at h
      split
      · next hd => simp [hd] at h
      · rfl
      · next hd => simp [hd] at h

theorem networkSwitch_eq (env : Env) (streamSettings : StreamConfig) (query : String)
    (h : headerDecodesToNull env streamSettings = false) :
    networkSwitch env (networkOf streamSettings) streamSettings query =
      .ret (addQueries query (transportParams env streamSettings)) := by
  unfold headerDecodesToNull at h
  unfold networkSwitch transportParams
  split_ifs at h ⊢
  · exact rawCase_eq env _ _ h
  · exact kcpCase_eq env _ _ h
  · rw [wsCase_eq]
  · rw [grpcCase_eq]
  · rw [httpupgradeCase_eq]
  · rw [xhttpCase_eq]
  · rfl

theorem networkSwitch_panic (env : Env) (streamSettings : StreamConfig) (query : String)
    (h : headerDecodesToNull env streamSettings = true) :
    networkSwitch env (networkOf streamSettings) streamSettings query = .panic nilDereference := by
  unfold headerDecodesToNull at h
  unfold networkSwitch
  split_ifs at h ⊢
  · exact rawCase_panic env _ _ h
  · exact kcpCase_panic env _ _ h

theorem withDefaultSecurity_eq (streamSettings : StreamConfig) :
    (if len streamSettings.Security = 0 then { streamSettings with Security := "none" }
      else streamSettings) = withDefaultSecurity streamSettings := by
  unfold withDefaultSecurity securityOf
  by_cases h : streamSettings.Security = ""
  · simp [h, len_eq_zero_iff]
  · simp [h, len_eq_zero_iff]

theorem securityParams_withDefaultSecurity (streamSettings : StreamConfig) :
    securityParams (withDefaultSecurity streamSettings) = securityParams streamSettings := by
  unfold withDefaultSecurity securityOf securityParams
  by_cases h : streamSettings.Security = ""
  · simp [h]
  · simp [h]

theorem streamSettingsQuery_absent (env : Env) (proxy : OutboundDetourConfig) (link : URL)
    (h : proxy.StreamSetting = none) :
    streamSettingsQuery env proxy link = .ret (proxy, link) := by
  unfold streamSettingsQuery
  simp only [h]

theorem streamSettingsQuery_eq (env : Env) (proxy : OutboundDetourConfig) (link : URL)
    (streamSettings : StreamConfig) (hss : proxy.StreamSetting = some streamSettings)
    (hnull : headerDecodesToNull env streamSettings = false) :
    streamSettingsQuery env proxy link =
      .ret ({ proxy with StreamSetting := some (withDefaultSecurity streamSettings) },
        { link with RawQuery := addQueries link.RawQuery (streamParams env streamSettings) }) := by
  unfold streamSettingsQuery
  simp only [hss, withDefaultSecurity_eq]
  have hn2 : networkOf (withDefaultSecurity streamSettings) = networkOf streamSettings := rfl
  have hnull2 : headerDecodesToNull env (withDefaultSecurity streamSettings) = false := hnull
  have ht : transportParams env (withDefaultSecurity streamSettings) =
      transportParams env streamSettings := rfl
  have hsec : (withDefaultSecurity streamSettings).Security = securityOf streamSettings := rfl
  have := networkSwitch_eq env (withDefaultSecurity streamSettings)
    (addQuery (addQuery link.RawQuery "type" (networkOf streamSettings)) "security"
      (securityOf streamSettings)) hnull2
  rw [hn2, ht] at this
  simp only [hsec]
  rw [this]
  simp only [securitySwitch_eq, securityParams_withDefaultSecurity, addQueries_append,
    addQuery_eq_addQueries, streamParams, List.singleton_append, List.cons_append, List.nil_append]

theorem streamSettingsQuery_panic (env : Env) (proxy : OutboundDetourConfig) (link : URL)
    (streamSettings : StreamConfig) (hss : proxy.StreamSetting = some streamSettings)
    (hnull : headerDecodesToNull env streamSettings = true) :
    streamSettingsQuery env proxy link = .panic nilDereference := by
  unfold streamSettingsQuery
  simp only [hss, withDefaultSecurity_eq]
  have hn2 : networkOf (withDefaultSecurity streamSettings) = networkOf streamSettings := rfl
  have hnull2 : headerDecodesToNull env (withDefaultSecurity streamSettings) = true := hnull
  have := networkSwitch_panic env (withDefaultSecurity streamSettings)
    (addQuery (addQuery link.RawQuery "type" (networkOf streamSettings)) "security"
      (withDefaultSecurity streamSettings).Security) hnull2
  rw [hn2] at this
  simp only [this]

theorem keysIn_nil (keys : List String) : KeysIn keys [] := by
  intro p hp; simp at hp

theorem keysIn_append {keys : List String} {l1 l2 : List (String × String)}
    (h1 : KeysIn keys l1) (h2 : KeysIn keys l2) : KeysIn keys (l1 ++ l2) := by
  intro p hp
  rcases List.mem_append.1 hp with hp | hp
  · exact h1 p hp
  · exact h2 p hp

theorem keysIn_cons {keys : List String} {key value : String} {l : List (String × String)}
    (hk : key ∈ keys) (h : KeysIn keys l) : KeysIn keys ((key, value) :: l) := by
  intro p hp
  rcases List.mem_cons.1 hp with rfl | hp
  · exact hk
  · exact h p hp

theorem keysIn_paramIfSet {keys : List String} {key : String} (value : String) (hk : key ∈ keys) :
    KeysIn keys (paramIfSet key value) := by
  unfold paramIfSet
  split_ifs
  · exact keysIn_cons hk (keysIn_nil _)
  · exact keysIn_nil _

theorem keysIn_paramIfAny {keys : List String} {key : String} (elems : List String)
    (hk : key ∈ keys) : KeysIn keys (paramIfAny key elems) := by
  unfold paramIfAny
  split_ifs
  · exact keysIn_cons hk (keysIn_nil _)
  · exact keysIn_nil _

theorem rawParams_keys (env : Env) (streamSettings : StreamConfig) :
    KeysIn transportKeys (rawParams env streamSettings) := by
  unfold rawParams
  repeat' split
  all_goals try exact keysIn_nil _
  unfold rawHeaderParams
  split_ifs
  · refine keysIn_cons (by decide) ?_
    repeat' split
    · exact keysIn_nil _
    · exact keysIn_append (keysIn_paramIfAny _ (by decide)) (keysIn_nil _)
    · exact keysIn_append (keysIn_paramIfAny _ (by decide)) (keysIn_paramIfAny _ (by decide))
  · exact keysIn_nil _

theorem kcpParams_keys (env : Env) (streamSettings : StreamConfig) :
    KeysIn transportKeys (kcpParams env streamSettings) := by
  unfold kcpParams
  split
  · exact keysIn_nil _
  · refine keysIn_append ?_ ?_
    · split
      · exact keysIn_paramIfSet _ (by decide)
      · exact keysIn_nil _
    · repeat' split
      all_goals first
        | exact keysIn_nil _
        | exact keysIn_paramIfSet _ (by decide)

theorem transportParams_keys (env : Env) (streamSettings : StreamConfig) :
    KeysIn transportKeys (transportParams env streamSettings) := by
  unfold transportParams
  split_ifs
  · exact rawParams_keys env _
  · exact kcpParams_keys env _
  · unfold wsParams
    split
    · exact keysIn_nil _
    · exact keysIn_append (keysIn_paramIfSet _ (by decide)) (keysIn_paramIfSet _ (by decide))
  · unfold grpcParams
    split
    · exact keysIn_nil _
    · exact keysIn_cons (by decide)
        (keysIn_append (keysIn_paramIfSet _ (by decide)) (keysIn_paramIfSet _ (by decide)))
  · unfold httpupgradeParams
    split
    · exact keysIn_nil _
    · exact keysIn_append (keysIn_paramIfSet _ (by decide)) (keysIn_paramIfSet _ (by decide))
  · unfold xhttpParams
    split
    · exact keysIn_nil _
    · refine keysIn_append (keysIn_append (keysIn_append (keysIn_paramIfSet _ (by decide))
        (keysIn_paramIfSet _ (by decide))) (keysIn_paramIfSet _ (by decide))) ?_
      unfold extraParam
      repeat' split
      all_goals first
        | exact keysIn_nil _
        | exact keysIn_cons (by decide) (keysIn_nil _)
  · exact keysIn_nil _

theorem securityParams_keys (streamSettings : StreamConfig) :
    KeysIn securityKeys (securityParams streamSettings) := by
  unfold securityParams
  split_ifs
  · unfold tlsParams
    split
    · exact keysIn_nil _
    · refine keysIn_append (keysIn_append (keysIn_append (keysIn_paramIfSet _ (by decide))
        (keysIn_paramIfSet _ (by decide))) ?_) ?_
      · split
        · exact keysIn_paramIfAny _ (by decide)
        · exact keysIn_nil _
      · split_ifs
        · exact keysIn_cons (by decide) (keysIn_nil _)
        · exact keysIn_nil _
  · unfold realityParams
    split
    · exact keysIn_nil _
    · exact keysIn_append (keysIn_append (keysIn_append (keysIn_append (keysIn_append
        (keysIn_paramIfSet _ (by decide)) (keysIn_paramIfSet _ (by decide)))
        (keysIn_paramIfSet _ (by decide))) (keysIn_paramIfSet _ (by decide)))
        (keysIn_paramIfSet _ (by decide))) (keysIn_paramIfSet _ (by decide))
  · exact keysIn_nil _

theorem protocolSwitch_unknown (env : Env) (proxy : OutboundDetourConfig) (shareUrl : URL)
    (h : proxy.Protocol ∉ ["shadowsocks", "vmess", "vless", "socks", "trojan"]) :
    protocolSwitch env proxy shareUrl = .ret (.ok shareUrl) := by
  simp only [List.mem_cons, List.mem_singleton, List.not_mem_nil, or_false, not_or] at h
  obtain ⟨h1, h2, h3, h4, h5⟩ := h
  simp only [protocolSwitch, h1, h2, h3, h4, h5, if_false]

/-! ## The claims -/

/-- C1 (code bug).  The document `{"outbounds":[{"protocol":"freedom"}]}` has a
single outbound of an unrecognized protocol, yet the conversion does not fail
with "no valid outbounds": the switch in `shareLink` has no default arm, so
`shareLink` returns the empty link with a nil error, one (empty) line is
collected, and the call returns the text `""` with a nil error. -/
theorem unknown_protocol_document_succeeds :
    demoEnv.unmarshalConfig docFreedom = .ok (some { OutboundConfigs := [freedomOutbound] }) ∧
    freedomOutbound.Protocol ∉ ["shadowsocks", "vmess", "vless", "socks", "trojan"] ∧
    shareLink demoEnv freedomOutbound = .ret (freedomOutbound, .ok {}) ∧
    ConvertXrayJsonToShareLinks demoEnv docFreedom = .ret ("", none) := by
  decide

/-- C2 (code bug).  On the document
`{"outbounds":[{"protocol":"blackhole","streamSettings":{"network":"ws"}}]}`
the conversion succeeds and the one link emitted into the output has an
empty scheme and an empty host: for the unrecognized protocol `shareLink`
returns, without error, a link that carries the transport query only. -/
theorem unknown_protocol_link_without_scheme_and_host :
    demoEnv.unmarshalConfig docBlackhole = .ok (some { OutboundConfigs := [blackholeOutbound] }) ∧
    ConvertXrayJsonToShareLinks demoEnv docBlackhole = .ret ("?type=ws&security=none", none) ∧
    shareLink demoEnv blackholeOutbound =
      .ret ({ blackholeOutbound with
              StreamSetting := some { Network := some "ws", Security := "none" } },
        .ok { Scheme := "", Host := "", RawQuery := "type=ws&security=none" }) := by
  decide

/-- The text of a successful conversion: the document decoded to a configuration
and the returned text is the `strings.Join`, with separator newline, of the
serialized links of the descriptors for which `shareLink` returned without
error, in the order of the outbound list; each line is a function of its own
descriptor only. -/
theorem convert_success_text (env : Env) (xrayBytes : Bytes) (shareText : String)
    (h : ConvertXrayJsonToShareLinks env xrayBytes = .ret (shareText, none)) :
    ∃ xray, env.unmarshalConfig xrayBytes = .ok (some xray) ∧
      shareText = stringsJoin (xray.OutboundConfigs.filterMap (emittedLine env)) "\n" := by
  unfold ConvertXrayJsonToShareLinks at h
  split at h
  · simp at h
  · simp at h
  · next xray hx =>
    refine ⟨xray, hx, ?_⟩
    simp only at h
    split_ifs at h with h0
    · simp at h
    · split at h
      · simp at h
      · next links hl =>
        have := collectLinks_ret env _ _ _ hl
        split_ifs at h with h1
        · simp at h
        · simp at h
          simp [← h, this]

set_option maxRecDepth 100000 in
/-- Example: the three-outbound document `docMixed`, whose second outbound is
skipped, converts to two lines joined by one newline. -/
theorem convert_success_text_witness :
    ConvertXrayJsonToShareLinks demoEnv docMixed =
        .ret ("vless://uuid-1@example.com:443?flow=xtls-rprx-vision#a\ntrojan://secret@t.example.com:8443#c",
          none) ∧
      ∃ xray, demoEnv.unmarshalConfig docMixed = .ok (some xray) ∧
        "vless://uuid-1@example.com:443?flow=xtls-rprx-vision#a\ntrojan://secret@t.example.com:8443#c" =
          stringsJoin (xray.OutboundConfigs.filterMap (emittedLine demoEnv)) "\n" :=
  ⟨by decide, convert_success_text demoEnv docMixed _ (by decide)⟩

set_option maxRecDepth 100000 in
/-- C3 (code bug).  The returned text is the join of the collected lines, but
the line collected for an outbound of an unrecognized protocol is empty: the
document with a vless outbound followed by `{"protocol":"freedom"}` converts
to a text that ends in a newline, and with the two outbounds swapped to a
text that begins with a newline. -/
theorem empty_line_breaks_newline_framing :
    demoEnv.unmarshalConfig docTrailing =
      .ok (some { OutboundConfigs := [vlessOutbound, freedomOutbound] }) ∧
    emittedLine demoEnv vlessOutbound =
      some "vless://uuid-1@example.com:443?flow=xtls-rprx-vision#a" ∧
    emittedLine demoEnv freedomOutbound = some "" ∧
    ConvertXrayJsonToShareLinks demoEnv docTrailing =
      .ret ("vless://uuid-1@example.com:443?flow=xtls-rprx-vision#a\n", none) ∧
    demoEnv.unmarshalConfig docLeading =
      .ok (some { OutboundConfigs := [freedomOutbound, vlessOutbound] }) ∧
    ConvertXrayJsonToShareLinks demoEnv docLeading =
      .ret ("\nvless://uuid-1@example.com:443?flow=xtls-rprx-vision#a", none) := by
  decide

/-- C4.  For a document that decodes to a configuration, the conversion fails
with "no valid outbounds" if and only if `shareLink` returns an error for
every descriptor.  A descriptor of a supported protocol whose settings blob
fails to decode makes `shareLink` return that error, and the loop then
collects exactly what it collects without that descriptor: the conversion of
the document equals the conversion of the document without it. -/
theorem convert_fails_iff_all_fail (env : Env) (xrayBytes : Bytes) (xray : Config)
    (hdec : env.unmarshalConfig xrayBytes = .ok (some xray)) :
    (ConvertXrayJsonToShareLinks env xrayBytes = .ret ("", some "no valid outbounds") ↔
      ∀ d ∈ xray.OutboundConfigs, ∃ err, shareLink env d = .ret (d, .error err)) ∧
    (∀ before d after err, xray.OutboundConfigs = before ++ d :: after →
      settingsDecodeError env d = some err →
      shareLink env d = .ret (d, .error err) ∧
      collectLinks env (before ++ d :: after) [] = collectLinks env (before ++ after) [] ∧
      ∀ otherBytes other, env.unmarshalConfig otherBytes = .ok (some other) →
        other.OutboundConfigs = before ++ after →
        ConvertXrayJsonToShareLinks env xrayBytes = ConvertXrayJsonToShareLinks env otherBytes) := by
  refine ⟨convert_error_iff env xrayBytes xray hdec, ?_⟩
  intro before d after err hsplit herr
  have hd := shareLink_of_settingsDecodeError env d err herr
  have hskip := collectLinks_skip env d err hd before after
  refine ⟨hd, hskip [], ?_⟩
  intro otherBytes other hother hout
  unfold ConvertXrayJsonToShareLinks
  simp only [hdec, hother, hsplit, hout, hskip []]
  by_cases h0 : before ++ after = []
  · simp only [h0, List.length_nil, if_true]
    have hb : before = [] := (List.append_eq_nil.1 h0).1
    have ha : after = [] := (List.append_eq_nil.1 h0).2
    subst hb ha
    simp [collectLinks, hd]
  · have h1 : (before ++ after).length ≠ 0 := by
      intro h; exact h0 (List.length_eq_zero.1 h)
    have h2 : (before ++ d :: after).length ≠ 0 := by simp
    simp only [h1, h2, if_false]

set_option maxRecDepth 100000 in
/-- Witness for C4: in `docMixed` the socks outbound has the settings blob `7`,
which does not decode; the document converts to the same two lines as
`docPair`, the document without that outbound. -/
theorem convert_fails_iff_all_fail_witness :
    (demoEnv.unmarshalConfig docMixed =
        .ok (some { OutboundConfigs := [vlessOutbound, brokenOutbound, trojanOutbound] }) ∧
      settingsDecodeError demoEnv brokenOutbound = some "json: cannot unmarshal" ∧
      demoEnv.unmarshalConfig docPair =
        .ok (some { OutboundConfigs := [vlessOutbound, trojanOutbound] })) ∧
    ConvertXrayJsonToShareLinks demoEnv docMixed = ConvertXrayJsonToShareLinks demoEnv docPair ∧
    ConvertXrayJsonToShareLinks demoEnv docPair =
      .ret ("vless://uuid-1@example.com:443?flow=xtls-rprx-vision#a\ntrojan://secret@t.example.com:8443#c",
        none) :=
  ⟨by decide,
    ((convert_fails_iff_all_fail demoEnv docMixed
      { OutboundConfigs := [vlessOutbound, brokenOutbound, trojanOutbound] } (by decide)).2
      [vlessOutbound] brokenOutbound [trojanOutbound] "json: cannot unmarshal" (by decide)
      (by decide)).2.2 docPair { OutboundConfigs := [vlessOutbound, trojanOutbound] } (by decide)
      (by decide),
    by decide⟩

/-- C5.  A document that decodes to a configuration with an empty outbound
list makes the conversion return the empty string together with the error
"no valid outbounds". -/
theorem empty_outbounds_error (env : Env) (xrayBytes : Bytes) (xray : Config)
    (hdec : env.unmarshalConfig xrayBytes = .ok (some xray))
    (hempty : xray.OutboundConfigs = []) :
    ConvertXrayJsonToShareLinks env xrayBytes = .ret ("", some "no valid outbounds") := by
  unfold ConvertXrayJsonToShareLinks
  simp [hdec, hempty]

/-- Witness for C5: the document `{"outbounds":[]}`. -/
theorem empty_outbounds_error_witness :
    demoEnv.unmarshalConfig docEmpty = .ok (some { OutboundConfigs := [] }) ∧
    ConvertXrayJsonToShareLinks demoEnv docEmpty = .ret ("", some "no valid outbounds") :=
  ⟨by decide, empty_outbounds_error demoEnv docEmpty { OutboundConfigs := [] } (by decide) rfl⟩

/-- C6.  For a descriptor whose settings blob is present and decodes to
settings of its protocol, the link built by the protocol switch of `shareLink`
is the row of the mapping table: scheme `ss`, `vmess`, `vless`, `socks`,
`trojan`; host `<address>:<port>`; userinfo base64 of `cipher:password`, the
raw id, the raw id, base64 of `username:password`, the raw password; query
parameters `encryption` for vmess when the security is non-empty, and `flow`
then `encryption` for vless, each when non-empty, and none otherwise; and
`shareLink` returns what `streamSettingsQuery` makes of that base link. -/
theorem base_link_table (env : Env) (proxy : OutboundDetourConfig) (raw : RawMessage)
    (hraw : proxy.Settings = some raw) :
    (∀ settings, proxy.Protocol = "shadowsocks" →
      env.unmarshalShadowsocks raw = .ok (some settings) →
      protocolSwitch env proxy {} = .ret (.ok (tableRow "ss" settings.Address settings.Port
        (EncodeToString (utf8 (settings.Cipher ++ ":" ++ settings.Password))) []
        (env.getOutboundName proxy)))) ∧
    (∀ settings, proxy.Protocol = "vmess" →
      env.unmarshalVMess raw = .ok (some settings) →
      protocolSwitch env proxy {} = .ret (.ok (tableRow "vmess" settings.Address settings.Port
        settings.ID
        (if settings.Security ≠ "" then [("encryption", settings.Security)] else [])
        (env.getOutboundName proxy)))) ∧
    (∀ settings, proxy.Protocol = "vless" →
      env.unmarshalVLess raw = .ok (some settings) →
      protocolSwitch env proxy {} = .ret (.ok (tableRow "vless" settings.Address settings.Port
        settings.Id
        ((if settings.Flow ≠ "" then [("flow", settings.Flow)] else []) ++
          (if settings.Encryption ≠ "" then [("encryption", settings.Encryption)] else []))
        (env.getOutboundName proxy)))) ∧
    (∀ settings, proxy.Protocol = "socks" →
      env.unmarshalSocks raw = .ok (some settings) →
      protocolSwitch env proxy {} = .ret (.ok (tableRow "socks" settings.Address settings.Port
        (EncodeToString (utf8 (settings.Username ++ ":" ++ settings.Password))) []
        (env.getOutboundName proxy)))) ∧
    (∀ settings, proxy.Protocol = "trojan" →
      env.unmarshalTrojan raw = .ok (some settings) →
      protocolSwitch env proxy {} = .ret (.ok (tableRow "trojan" settings.Address settings.Port
        settings.Password [] (env.getOutboundName proxy)))) ∧
    (∀ base, protocolSwitch env proxy {} = .ret (.ok base) →
      shareLink env proxy = withStreamSettings env proxy base) := by
  refine ⟨?_, ?_, ?_, ?_, ?_, ?_⟩
  · intro settings hp hd
    simp [protocolSwitch, hp, shadowsocksLink, hraw, hd, tableRow, addQueries]
  · intro settings hp hd
    by_cases hs : settings.Security = "" <;>
      simp [protocolSwitch, hp, vmessLink, hraw, hd, tableRow, addQueries, hs, len_pos_iff]
  · intro settings hp hd
    by_cases hf : settings.Flow = "" <;> by_cases he : settings.Encryption = ""
    all_goals
      simp [protocolSwitch, hp, vlessLink, hraw, hd, tableRow, addQueries, hf, he, len_pos_iff]
  · intro settings hp hd
    simp [protocolSwitch, hp, socksLink, hraw, hd, tableRow, addQueries]
  · intro settings hp hd
    simp [protocolSwitch, hp, trojanLink, hraw, hd, tableRow, addQueries]
  · intro base h
    exact shareLink_eq_withStreamSettings env proxy base h

/-- Witness for C6: one outbound of each supported protocol, with the base
link the table gives for it. -/
theorem base_link_table_witness :
    (demoEnv.unmarshalShadowsocks shadowsocksBlob = .ok (some shadowsocksSettings) ∧
      demoEnv.unmarshalVMess vmessBlob = .ok (some vmessSettings) ∧
      demoEnv.unmarshalVLess vlessBlob = .ok (some vlessSettings) ∧
      demoEnv.unmarshalSocks socksBlob = .ok (some socksSettings) ∧
      demoEnv.unmarshalTrojan trojanBlob = .ok (some trojanSettings)) ∧
    protocolSwitch demoEnv shadowsocksOutbound {} =
      .ret (.ok (tableRow "ss" (some "10.0.0.1") 8388 "YWVzLTI1Ni1nY206cGFzcw==" [] "shadowsocks")) ∧
    protocolSwitch demoEnv vmessOutbound {} =
      .ret (.ok (tableRow "vmess" (some "v.example.com") 10086 "uuid-2" [("encryption", "auto")]
        "vmess")) ∧
    protocolSwitch demoEnv vlessOutbound {} =
      .ret (.ok (tableRow "vless" (some "example.com") 443 "uuid-1" [("flow", "xtls-rprx-vision")]
        "a")) ∧
    protocolSwitch demoEnv socksOutbound {} =
      .ret (.ok (tableRow "socks" (some "s.example.com") 1080 "YWxpY2U6cHc=" [] "socks")) ∧
    protocolSwitch demoEnv trojanOutbound {} =
      .ret (.ok (tableRow "trojan" (some "t.example.com") 8443 "secret" [] "c")) ∧
    (tableRow "vless" (some "example.com") 443 "uuid-1" [("flow", "xtls-rprx-vision")] "a").String =
      "vless://uuid-1@example.com:443?flow=xtls-rprx-vision#a" :=
  ⟨by decide,
    (base_link_table demoEnv shadowsocksOutbound shadowsocksBlob rfl).1 shadowsocksSettings rfl
      (by decide),
    (base_link_table demoEnv vmessOutbound vmessBlob rfl).2.1 vmessSettings rfl (by decide),
    (base_link_table demoEnv vlessOutbound vlessBlob rfl).2.2.1 vlessSettings rfl (by decide),
    (base_link_table demoEnv socksOutbound socksBlob rfl).2.2.2.1 socksSettings rfl (by decide),
    (base_link_table demoEnv trojanOutbound trojanBlob rfl).2.2.2.2.1 trojanSettings rfl (by decide),
    by decide⟩

/-- C7.  The username that `shadowsocksLink` and `socksLink` put into the link
base64-decodes to exactly the bytes of `cipher:password`, respectively
`username:password`, of the decoded settings. -/
theorem userinfo_round_trip (env : Env) (proxy : OutboundDetourConfig) (link : URL)
    (raw : RawMessage) (hraw : proxy.Settings = some raw) :
    (∀ settings, env.unmarshalShadowsocks raw = .ok (some settings) →
      ∃ built userinfo, shadowsocksLink env proxy link = .ret (.ok built) ∧
        built.User = some userinfo ∧
        DecodeString userinfo.username = some (utf8 (settings.Cipher ++ ":" ++ settings.Password))) ∧
    (∀ settings, env.unmarshalSocks raw = .ok (some settings) →
      ∃ built userinfo, socksLink env proxy link = .ret (.ok built) ∧
        built.User = some userinfo ∧
        DecodeString userinfo.username =
          some (utf8 (settings.Username ++ ":" ++ settings.Password))) := by
  constructor
  · intro settings hd
    simp only [shadowsocksLink, hraw, hd]
    exact ⟨_, _, rfl, rfl, DecodeString_EncodeToString _ (utf8_lt _)⟩
  · intro settings hd
    simp only [socksLink, hraw, hd]
    exact ⟨_, _, rfl, rfl, DecodeString_EncodeToString _ (utf8_lt _)⟩

/-- Witness for C7: the shadowsocks outbound with cipher `aes-256-gcm` and
password `pass`. -/
theorem userinfo_round_trip_witness :
    (demoEnv.unmarshalShadowsocks shadowsocksBlob = .ok (some shadowsocksSettings) ∧
      shadowsocksLink demoEnv shadowsocksOutbound {} =
        .ret (.ok (tableRow "ss" (some "10.0.0.1") 8388 "YWVzLTI1Ni1nY206cGFzcw==" []
          "shadowsocks"))) ∧
    ∃ built userinfo, shadowsocksLink demoEnv shadowsocksOutbound {} = .ret (.ok built) ∧
      built.User = some userinfo ∧
      DecodeString userinfo.username = some (utf8 ("aes-256-gcm" ++ ":" ++ "pass")) :=
  ⟨by decide,
    (userinfo_round_trip demoEnv shadowsocksOutbound {} shadowsocksBlob rfl).1 shadowsocksSettings
      (by decide)⟩

/-- C8, counterexample.  The vless outbound `vlessOutbound` has no transport
settings block: `streamSettingsQuery` returns the link untouched, and the
query of the link that `shareLink` builds is `flow=xtls-rprx-vision`, with no
`type` and no `security` parameter. -/
theorem absent_stream_settings_append_nothing :
    vlessOutbound.StreamSetting = none ∧
    streamSettingsQuery demoEnv vlessOutbound {} = .ret (vlessOutbound, { RawQuery := "" }) ∧
    shareLink demoEnv vlessOutbound =
      .ret (vlessOutbound, .ok (tableRow "vless" (some "example.com") 443 "uuid-1"
        [("flow", "xtls-rprx-vision")] "a")) ∧
    (tableRow "vless" (some "example.com") 443 "uuid-1" [("flow", "xtls-rprx-vision")] "a").RawQuery =
      "flow=xtls-rprx-vision" := by
  decide

/-- C8, amended.  Without a transport settings block `streamSettingsQuery`
returns the descriptor and the link unchanged.  With a block whose raw or kcp
header blob does not decode to `null`, it returns, and the query of the link
is the old query followed by `type=<transport kind, raw by default>`, then
`security=<security kind, none by default>`, then parameters with
transport-specific keys, then parameters with security-specific keys. -/
theorem stream_query_begins_with_type_security (env : Env) (proxy : OutboundDetourConfig)
    (link : URL) :
    (proxy.StreamSetting = none → streamSettingsQuery env proxy link = .ret (proxy, link)) ∧
    (∀ streamSettings, proxy.StreamSetting = some streamSettings →
      headerDecodesToNull env streamSettings = false →
      ∃ transport security, KeysIn transportKeys transport ∧ KeysIn securityKeys security ∧
        streamSettingsQuery env proxy link =
          .ret ({ proxy with StreamSetting := some (withDefaultSecurity streamSettings) },
            { link with
              RawQuery := addQueries link.RawQuery
                (("type", networkOf streamSettings) :: ("security", securityOf streamSettings) ::
                  (transport ++ security)) })) := by
  refine ⟨streamSettingsQuery_absent env proxy link, ?_⟩
  intro streamSettings hss hnull
  exact ⟨transportParams env streamSettings, securityParams streamSettings,
    transportParams_keys env streamSettings, securityParams_keys streamSettings,
    streamSettingsQuery_eq env proxy link streamSettings hss hnull⟩

/-- Witness for C8: a vless link over ws with tls. -/
theorem stream_query_begins_with_type_security_witness :
    (headerDecodesToNull demoEnv wsTlsStream = false ∧
      streamSettingsQuery demoEnv wsTlsOutbound { RawQuery := "flow=xtls-rprx-vision" } =
        .ret (wsTlsOutbound, { RawQuery :=
          "flow=xtls-rprx-vision&type=ws&security=tls&path=%2Fp&host=h.example.com&sni=h.example.com" })) ∧
    ∃ transport security, KeysIn transportKeys transport ∧ KeysIn securityKeys security ∧
      streamSettingsQuery demoEnv wsTlsOutbound { RawQuery := "flow=xtls-rprx-vision" } =
        .ret ({ wsTlsOutbound with StreamSetting := some (withDefaultSecurity wsTlsStream) },
          { RawQuery := addQueries "flow=xtls-rprx-vision"
                (("type", networkOf wsTlsStream) :: ("security", securityOf wsTlsStream) ::
                  (transport ++ security)) }) :=
  ⟨by decide,
    (stream_query_begins_with_type_security demoEnv wsTlsOutbound
      { RawQuery := "flow=xtls-rprx-vision" }).2 wsTlsStream rfl (by decide)⟩

/-- C9, counterexample.  For transport kind grpc without a grpc settings
block the query is `type=grpc&security=none`: no `mode` parameter. -/
theorem grpc_without_settings_has_no_mode :
    networkOf grpcBareStream = "grpc" ∧
    grpcBareOutbound.StreamSetting = some grpcBareStream ∧
    streamSettingsQuery demoEnv grpcBareOutbound {} =
      .ret ({ grpcBareOutbound with StreamSetting := some (withDefaultSecurity grpcBareStream) },
        { RawQuery := "type=grpc&security=none" }) := by
  decide

/-- C9, amended.  For transport kind grpc with a grpc settings block present,
`streamSettingsQuery` returns and the query is the old query followed by
`type=grpc`, `security`, then `mode` with value `multi` when the multi-mode
flag is set and `gun` otherwise, then `serviceName` and `authority` when
non-empty, then security-specific parameters.  Without a grpc settings block
it returns and the query is the old query followed by `type=grpc`, `security`
and security-specific parameters only: no parameter has the key `mode`. -/
theorem grpc_mode_parameter (env : Env) (proxy : OutboundDetourConfig) (link : URL)
    (streamSettings : StreamConfig)
    (hss : proxy.StreamSetting = some streamSettings)
    (hnet : networkOf streamSettings = "grpc") :
    (∀ grpcSettings, streamSettings.GRPCSettings = some grpcSettings →
      ∃ security, KeysIn securityKeys security ∧
        streamSettingsQuery env proxy link =
          .ret ({ proxy with StreamSetting := some (withDefaultSecurity streamSettings) },
            { link with
              RawQuery := addQueries link.RawQuery
                (("type", "grpc") :: ("security", securityOf streamSettings) ::
                  ("mode", if grpcSettings.MultiMode then "multi" else "gun") ::
                  (paramIfSet "serviceName" grpcSettings.ServiceName ++
                    paramIfSet "authority" grpcSettings.Authority ++ security)) })) ∧
    (streamSettings.GRPCSettings = none →
      ∃ security, KeysIn securityKeys security ∧
        "mode" ∉ keysOf (("type", "grpc") :: ("security", securityOf streamSettings) :: security) ∧
        streamSettingsQuery env proxy link =
          .ret ({ proxy with StreamSetting := some (withDefaultSecurity streamSettings) },
            { link with
              RawQuery := addQueries link.RawQuery
                (("type", "grpc") :: ("security", securityOf streamSettings) :: security) })) := by
  have hnull : headerDecodesToNull env streamSettings = false := by
    unfold headerDecodesToNull
    rw [hnet]
    rfl
  refine ⟨?_, ?_⟩
  · intro grpcSettings hgrpc
    have htr : transportParams env streamSettings =
        ("mode", if grpcSettings.MultiMode then "multi" else "gun") ::
          (paramIfSet "serviceName" grpcSettings.ServiceName ++
            paramIfSet "authority" grpcSettings.Authority) := by
      unfold transportParams
      rw [hnet]
      simp only [grpcParams, hgrpc]
      rfl
    refine ⟨securityParams streamSettings, securityParams_keys streamSettings, ?_⟩
    rw [streamSettingsQuery_eq env proxy link streamSettings hss hnull]
    simp only [streamParams, htr, hnet, List.cons_append, List.append_assoc]
  · intro hgrpc
    have htr : transportParams env streamSettings = [] := by
      unfold transportParams
      rw [hnet]
      simp only [grpcParams, hgrpc]
      rfl
    refine ⟨securityParams streamSettings, securityParams_keys streamSettings, ?_, ?_⟩
    · intro hmem
      have hkeys : keysOf (("type", "grpc") :: ("security", securityOf streamSettings) ::
          securityParams streamSettings) =
          "type" :: "security" :: keysOf (securityParams streamSettings) := rfl
      rw [hkeys] at hmem
      simp only [List.mem_cons] at hmem
      rcases hmem with h | h | h
      · exact absurd h (by decide)
      · exact absurd h (by decide)
      · simp only [keysOf, List.mem_map] at h
        obtain ⟨p, hp, hkey⟩ := h
        have hsec := securityParams_keys streamSettings p hp
        rw [hkey] at hsec
        exact absurd hsec (by decide)
    · rw [streamSettingsQuery_eq env proxy link streamSettings hss hnull]
      simp only [streamParams, htr, hnet, List.nil_append]

/-- Witness for C9: a grpc settings block with no field set still yields
`mode=gun` right after `type` and `security`; without the block the query is
`type=grpc&security=none`. -/
theorem grpc_mode_parameter_witness :
    (networkOf grpcStream = "grpc" ∧ grpcStream.GRPCSettings = some {} ∧
      streamSettingsQuery demoEnv grpcOutbound {} =
        .ret ({ grpcOutbound with StreamSetting := some (withDefaultSecurity grpcStream) },
          { RawQuery := "type=grpc&security=none&mode=gun" }) ∧
      networkOf grpcBareStream = "grpc" ∧ grpcBareStream.GRPCSettings = none) ∧
    (∃ security, KeysIn securityKeys security ∧
      streamSettingsQuery demoEnv grpcOutbound {} =
        .ret ({ grpcOutbound with StreamSetting := some (withDefaultSecurity grpcStream) },
          { RawQuery := addQueries "" (("type", "grpc") :: ("security", securityOf grpcStream) ::
                ("mode", if ({} : GRPCConfig).MultiMode then "multi" else "gun") ::
                (paramIfSet "serviceName" ({} : GRPCConfig).ServiceName ++
                  paramIfSet "authority" ({} : GRPCConfig).Authority ++ security)) })) ∧
    (∃ security, KeysIn securityKeys security ∧
      "mode" ∉ keysOf (("type", "grpc") :: ("security", securityOf grpcBareStream) :: security) ∧
      streamSettingsQuery demoEnv grpcBareOutbound {} =
        .ret ({ grpcBareOutbound with
                StreamSetting := some (withDefaultSecurity grpcBareStream) },
          { RawQuery := addQueries ""
              (("type", "grpc") :: ("security", securityOf grpcBareStream) :: security) })) :=
  ⟨by decide,
    (grpc_mode_parameter demoEnv grpcOutbound {} grpcStream rfl (by decide)).1 {} rfl,
    (grpc_mode_parameter demoEnv grpcBareOutbound {} grpcBareStream rfl (by decide)).2 rfl⟩

/-- C10 (code bug).  For the outbound whose raw settings are `{"header":null}`
the header blob is the four bytes `null`; it decodes without error to a nil
pointer, `header.Type` dereferences it, and `streamSettingsQuery` (hence the
whole conversion) panics instead of returning a link. -/
theorem null_raw_header_panics :
    demoEnv.unmarshalConfig docNullHeader = .ok (some { OutboundConfigs := [nullHeaderOutbound] }) ∧
    demoEnv.unmarshalRawHeader (utf8 "null") = .ok none ∧
    streamSettingsQuery demoEnv nullHeaderOutbound {} = .panic nilDereference ∧
    ConvertXrayJsonToShareLinks demoEnv docNullHeader = .panic nilDereference := by
  decide


/-! ## Rendering of the query -/

theorem renderParam_ne_empty (p : String × String) : renderParam p ≠ "" := by
  intro h
  have := congrArg String.data h
  simp [renderParam, String.data_append] at this

theorem addQuery_empty (key value : String) :
    addQuery "" key value = renderParam (key, value) := by
  simp [addQuery, renderParam, len_eq_zero_iff]

theorem addQuery_nonempty (query key value : String) (h : query ≠ "") :
    addQuery query key value = query ++ "&" ++ renderParam (key, value) := by
  simp [addQuery, renderParam, len_eq_zero_iff, h]

theorem append_ne_empty_left (a b : String) (h : a ≠ "") : a ++ b ≠ "" := by
  intro e
  apply h
  have := congrArg String.data e
  simp [String.data_append] at this
  exact String.ext this.1

theorem addQuery_ne_empty (query key value : String) : addQuery query key value ≠ "" := by
  by_cases h : query = ""
  · subst h
    rw [addQuery_empty]
    exact renderParam_ne_empty _
  · rw [addQuery_nonempty _ _ _ h]
    exact append_ne_empty_left _ _ (append_ne_empty_left _ _ h)

theorem stringsJoin_cons_append (a b : String) (rest : List String) :
    stringsJoin ((a ++ "&" ++ b) :: rest) "&" = a ++ "&" ++ stringsJoin (b :: rest) "&" := by
  cases rest with
  | nil => rfl
  | cons c r => simp [stringsJoin, String.append_assoc]

theorem addQueries_nonempty (params : List (String × String)) :
    ∀ query, query ≠ "" →
      addQueries query params = stringsJoin (query :: params.map renderParam) "&" := by
  induction params with
  | nil => intro query _; rfl
  | cons p ps ih =>
    intro query h
    have hstep : addQueries query (p :: ps) = addQueries (addQuery query p.1 p.2) ps := rfl
    rw [hstep, ih _ (addQuery_ne_empty _ _ _), addQuery_nonempty _ _ _ h, stringsJoin_cons_append]
    cases ps <;> simp [stringsJoin, String.append_assoc]

theorem addQueries_empty (params : List (String × String)) :
    addQueries "" params = stringsJoin (params.map renderParam) "&" := by
  cases params with
  | nil => rfl
  | cons p ps =>
    have hstep : addQueries "" (p :: ps) = addQueries (addQuery "" p.1 p.2) ps := rfl
    rw [hstep, addQueries_nonempty _ _ (addQuery_ne_empty _ _ _), addQuery_empty]
    rfl

set_option maxRecDepth 100000 in
theorem escapeByte_query_clean :
    ∀ c, c < 256 → ∀ x ∈ escapeByte .encodeQueryComponent c, x ≠ '&' ∧ x ≠ '=' := by
  decide

theorem QueryEscape_clean (value : String) :
    '&' ∉ (QueryEscape value).data ∧ '=' ∉ (QueryEscape value).data := by
  have h : ∀ x ∈ (QueryEscape value).data, x ≠ '&' ∧ x ≠ '=' := by
    intro x hx
    simp only [QueryEscape, escape, List.mem_flatMap] at hx
    obtain ⟨c, hc, hx⟩ := hx
    exact escapeByte_query_clean c (utf8_lt value c hc) x hx
  exact ⟨fun hm => (h _ hm).1 rfl, fun hm => (h _ hm).2 rfl⟩

/-! ## Keys of the query -/

theorem keysOf_append (l1 l2 : List (String × String)) :
    keysOf (l1 ++ l2) = keysOf l1 ++ keysOf l2 := by
  simp [keysOf]

theorem keysOf_paramIfSet (key value : String) : (keysOf (paramIfSet key value)).Sublist [key] := by
  unfold paramIfSet keysOf
  split_ifs <;> simp

theorem keysOf_paramIfAny (key : String) (elems : List String) :
    (keysOf (paramIfAny key elems)).Sublist [key] := by
  unfold paramIfAny keysOf
  split_ifs <;> simp

theorem keysOf_nil_sublist (l : List String) : (keysOf []).Sublist l := by
  simp [keysOf]

theorem rawParams_sublist (env : Env) (streamSettings : StreamConfig) :
    (keysOf (rawParams env streamSettings)).Sublist ["headerType", "path", "host"] := by
  unfold rawParams
  repeat' split
  all_goals try exact keysOf_nil_sublist _
  unfold rawHeaderParams
  split_ifs
  · have hcons : ∀ t rest, keysOf (("headerType", t) :: rest) = "headerType" :: keysOf rest := by
      intro t rest; rfl
    rw [hcons]
    refine List.Sublist.cons₂ _ ?_
    repeat' split
    · exact keysOf_nil_sublist _
    · rw [keysOf_append]
      show List.Sublist (_ ++ _) (["path"] ++ ["host"])
      exact List.Sublist.append (keysOf_paramIfAny _ _) (keysOf_nil_sublist _)
    · rw [keysOf_append]
      show List.Sublist (_ ++ _) (["path"] ++ ["host"])
      exact List.Sublist.append (keysOf_paramIfAny _ _) (keysOf_paramIfAny _ _)
  · exact keysOf_nil_sublist _

theorem kcpParams_sublist (env : Env) (streamSettings : StreamConfig) :
    (keysOf (kcpParams env streamSettings)).Sublist ["seed", "headerType"] := by
  unfold kcpParams
  split
  · exact keysOf_nil_sublist _
  · rw [keysOf_append]
    show List.Sublist (_ ++ _) (["seed"] ++ ["headerType"])
    refine List.Sublist.append ?_ ?_
    · split
      · exact keysOf_paramIfSet _ _
      · exact keysOf_nil_sublist _
    · repeat' split
      all_goals first
        | exact keysOf_nil_sublist _
        | exact keysOf_paramIfSet _ _

theorem wsParams_sublist (streamSettings : StreamConfig) :
    (keysOf (wsParams streamSettings)).Sublist ["path", "host"] := by
  unfold wsParams
  split
  · exact keysOf_nil_sublist _
  · rw [keysOf_append]
    show List.Sublist (_ ++ _) (["path"] ++ ["host"])
    exact List.Sublist.append (keysOf_paramIfSet _ _) (keysOf_paramIfSet _ _)

theorem grpcParams_sublist (streamSettings : StreamConfig) :
    (keysOf (grpcParams streamSettings)).Sublist ["mode", "serviceName", "authority"] := by
  unfold grpcParams
  split
  · exact keysOf_nil_sublist _
  · have hcons : ∀ t rest, keysOf (("mode", t) :: rest) = "mode" :: keysOf rest := by
      intro t rest; rfl
    rw [hcons, keysOf_append]
    refine List.Sublist.cons₂ _ ?_
    show List.Sublist (_ ++ _) (["serviceName"] ++ ["authority"])
    exact List.Sublist.append (keysOf_paramIfSet _ _) (keysOf_paramIfSet _ _)

theorem httpupgradeParams_sublist (streamSettings : StreamConfig) :
    (keysOf (httpupgradeParams streamSettings)).Sublist ["host", "path"] := by
  unfold httpupgradeParams
  split
  · exact keysOf_nil_sublist _
  · rw [keysOf_append]
    show List.Sublist (_ ++ _) (["host"] ++ ["path"])
    exact List.Sublist.append (keysOf_paramIfSet _ _) (keysOf_paramIfSet _ _)

theorem extraParam_sublist (env : Env) (extra : Option RawMessage) :
    (keysOf (extraParam env extra)).Sublist ["extra"] := by
  unfold extraParam
  repeat' split
  all_goals first
    | exact keysOf_nil_sublist _
    | exact List.Sublist.refl _

theorem xhttpParams_sublist (env : Env) (streamSettings : StreamConfig) :
    (keysOf (xhttpParams env streamSettings)).Sublist ["host", "path", "mode", "extra"] := by
  unfold xhttpParams
  split
  · exact keysOf_nil_sublist _
  · rw [keysOf_append, keysOf_append, keysOf_append]
    show List.Sublist (_ ++ _ ++ _ ++ _) (["host"] ++ ["path"] ++ ["mode"] ++ ["extra"])
    exact List.Sublist.append (List.Sublist.append (List.Sublist.append (keysOf_paramIfSet _ _)
      (keysOf_paramIfSet _ _)) (keysOf_paramIfSet _ _)) (extraParam_sublist env _)

theorem transportParams_sublist (env : Env) (streamSettings : StreamConfig) :
    ∃ order ∈ transportKeyOrders, (keysOf (transportParams env streamSettings)).Sublist order := by
  unfold transportParams
  split_ifs
  · exact ⟨_, by decide, rawParams_sublist env _⟩
  · exact ⟨_, by decide, kcpParams_sublist env _⟩
  · exact ⟨_, by decide, wsParams_sublist _⟩
  · exact ⟨_, by decide, grpcParams_sublist _⟩
  · exact ⟨_, by decide, httpupgradeParams_sublist _⟩
  · exact ⟨_, by decide, xhttpParams_sublist env _⟩
  · exact ⟨[], by decide, keysOf_nil_sublist _⟩

theorem tlsParams_sublist (streamSettings : StreamConfig) :
    (keysOf (tlsParams streamSettings)).Sublist ["fp", "sni", "alpn", "allowInsecure"] := by
  unfold tlsParams
  split
  · exact keysOf_nil_sublist _
  · rw [keysOf_append, keysOf_append, keysOf_append]
    show List.Sublist (_ ++ _ ++ _ ++ _) (["fp"] ++ ["sni"] ++ ["alpn"] ++ ["allowInsecure"])
    refine List.Sublist.append (List.Sublist.append (List.Sublist.append (keysOf_paramIfSet _ _)
      (keysOf_paramIfSet _ _)) ?_) ?_
    · split
      · exact keysOf_paramIfAny _ _
      · exact keysOf_nil_sublist _
    · split_ifs
      · exact List.Sublist.refl _
      · exact keysOf_nil_sublist _

theorem realityParams_sublist (streamSettings : StreamConfig) :
    (keysOf (realityParams streamSettings)).Sublist ["fp", "sni", "pbk", "sid", "pqv", "spx"] := by
  unfold realityParams
  split
  · exact keysOf_nil_sublist _
  · rw [keysOf_append, keysOf_append, keysOf_append, keysOf_append, keysOf_append]
    show List.Sublist (_ ++ _ ++ _ ++ _ ++ _ ++ _) (["fp"] ++ ["sni"] ++ ["pbk"] ++ ["sid"] ++ ["pqv"] ++ ["spx"])
    exact List.Sublist.append (List.Sublist.append (List.Sublist.append (List.Sublist.append
      (List.Sublist.append (keysOf_paramIfSet _ _) (keysOf_paramIfSet _ _))
      (keysOf_paramIfSet _ _)) (keysOf_paramIfSet _ _)) (keysOf_paramIfSet _ _))
      (keysOf_paramIfSet _ _)

theorem securityParams_sublist (streamSettings : StreamConfig) :
    ∃ order ∈ securityKeyOrders, (keysOf (securityParams streamSettings)).Sublist order := by
  unfold securityParams
  split_ifs
  · exact ⟨_, by decide, tlsParams_sublist _⟩
  · exact ⟨_, by decide, realityParams_sublist _⟩
  · exact ⟨[], by decide, keysOf_nil_sublist _⟩

theorem protocolParams_sublist (env : Env) (proxy : OutboundDetourConfig) :
    (keysOf (protocolParams env proxy)).Sublist ["flow", "encryption"] := by
  unfold protocolParams
  repeat' split
  all_goals try exact keysOf_nil_sublist _
  · exact (keysOf_paramIfSet _ _).trans (List.Sublist.cons _ (List.Sublist.refl _))
  · rw [keysOf_append]
    show List.Sublist (_ ++ _) (["flow"] ++ ["encryption"])
    exact List.Sublist.append (keysOf_paramIfSet _ _) (keysOf_paramIfSet _ _)

theorem key_orders_nodup :
    ∀ transport ∈ transportKeyOrders, ∀ security ∈ securityKeyOrders,
      (["flow", "encryption"] ++ ("type" :: "security" :: (transport ++ security))).Nodup := by
  decide

theorem linkParams_nodup (env : Env) (proxy : OutboundDetourConfig) :
    (keysOf (linkParams env proxy)).Nodup := by
  unfold linkParams
  rw [keysOf_append]
  cases proxy.StreamSetting with
  | none =>
    have h := protocolParams_sublist env proxy
    simp only [keysOf, List.map_nil, List.append_nil] at h ⊢
    exact List.Nodup.sublist h (by decide)
  | some streamSettings =>
    obtain ⟨transport, ht, htr⟩ := transportParams_sublist env streamSettings
    obtain ⟨security, hs, hsec⟩ := securityParams_sublist streamSettings
    have hstream : (keysOf (streamParams env streamSettings)).Sublist
        ("type" :: "security" :: (transport ++ security)) := by
      have : keysOf (streamParams env streamSettings) =
          "type" :: "security" ::
            (keysOf (transportParams env streamSettings) ++
              keysOf (securityParams streamSettings)) := by
        simp [streamParams, keysOf]
      rw [this]
      exact List.Sublist.cons₂ _ (List.Sublist.cons₂ _ (List.Sublist.append htr hsec))
    exact List.Nodup.sublist (List.Sublist.append (protocolParams_sublist env proxy) hstream)
      (key_orders_nodup transport ht security hs)

/-! ## The query of a whole link -/

theorem addQueries_eq_stringsJoin (query : String) (params : List (String × String)) :
    addQueries query params =
      stringsJoin ((if query = "" then [] else [query]) ++ params.map renderParam) "&" := by
  by_cases h : query = ""
  · subst h
    simp [addQueries_empty]
  · simp [h, addQueries_nonempty _ _ h]

theorem protocolSwitch_rawQuery (env : Env) (proxy : OutboundDetourConfig) (base : URL)
    (hp : proxy.Protocol ∈ ["shadowsocks", "vmess", "vless", "socks", "trojan"])
    (hbase : protocolSwitch env proxy {} = .ret (.ok base)) :
    base.RawQuery = addQueries "" (protocolParams env proxy) := by
  simp only [List.mem_cons, List.mem_singleton, List.not_mem_nil, or_false] at hp
  cases hs : proxy.Settings with
  | none =>
    rcases hp with hp | hp | hp | hp | hp <;>
      simp [protocolSwitch, hp, hs, shadowsocksLink, vmessLink, vlessLink, socksLink,
        trojanLink] at hbase
  | some raw =>
    rcases hp with hp | hp | hp | hp | hp
    · simp only [protocolSwitch, hp, shadowsocksLink, hs, if_true] at hbase
      split at hbase <;> simp at hbase
      rw [← hbase]
      simp [protocolParams, hs, hp, addQueries]
    · simp [protocolSwitch, hp, vmessLink, hs] at hbase
      cases hd : env.unmarshalVMess raw with
      | error e => simp [hd] at hbase
      | ok decoded =>
        cases decoded with
        | none => simp [hd] at hbase
        | some settings =>
          simp only [hd, Run.ret.injEq, Except.ok.injEq] at hbase
          rw [← hbase]
          by_cases hsec : settings.Security = "" <;>
            simp [protocolParams, hs, hp, hd, paramIfSet, hsec, len_pos_iff, addQueries]
    · simp [protocolSwitch, hp, vlessLink, hs] at hbase
      cases hd : env.unmarshalVLess raw with
      | error e => simp [hd] at hbase
      | ok decoded =>
        cases decoded with
        | none => simp [hd] at hbase
        | some settings =>
          simp only [hd, Run.ret.injEq, Except.ok.injEq] at hbase
          rw [← hbase]
          by_cases hf : settings.Flow = "" <;> by_cases he : settings.Encryption = "" <;>
            simp [protocolParams, hs, hp, hd, paramIfSet, hf, he, len_pos_iff, addQueries]
    · simp [protocolSwitch, hp, socksLink, hs] at hbase
      split at hbase <;> simp at hbase
      rw [← hbase]
      simp [protocolParams, hs, hp, addQueries]
    · simp [protocolSwitch, hp, trojanLink, hs] at hbase
      split at hbase <;> simp at hbase
      rw [← hbase]
      simp [protocolParams, hs, hp, addQueries]

theorem shareLink_query (env : Env) (proxy : OutboundDetourConfig) (base : URL)
    (hbase : protocolSwitch env proxy {} = .ret (.ok base))
    (hq : base.RawQuery = addQueries "" (protocolParams env proxy))
    (hnull : ∀ streamSettings, proxy.StreamSetting = some streamSettings →
      headerDecodesToNull env streamSettings = false) :
    shareLink env proxy =
      .ret ({ proxy with StreamSetting := proxy.StreamSetting.map withDefaultSecurity },
        .ok { base with RawQuery := addQueries "" (linkParams env proxy) }) := by
  rw [shareLink_eq_withStreamSettings env proxy base hbase]
  unfold withStreamSettings linkParams
  cases hss : proxy.StreamSetting with
  | none =>
    rw [streamSettingsQuery_absent env proxy base hss]
    have hproxy : ({ proxy with StreamSetting := none } : OutboundDetourConfig) = proxy := by
      rw [← hss]
    simp only [Option.map_none', List.append_nil, ← hq, hproxy]
  | some streamSettings =>
    rw [streamSettingsQuery_eq env proxy base streamSettings hss (hnull _ hss)]
    simp only [Option.map_some', hq, addQueries_append]


/-! ## Further facts about `streamSettingsQuery` and `URL.String` -/

theorem streamSettingsQuery_keep (env : Env) (proxy : OutboundDetourConfig) (link : URL)
    (streamSettings : StreamConfig) (hss : proxy.StreamSetting = some streamSettings)
    (hsec : streamSettings.Security ≠ "")
    (hnull : headerDecodesToNull env streamSettings = false) :
    streamSettingsQuery env proxy link =
      .ret (proxy,
        { link with RawQuery := addQueries link.RawQuery (streamParams env streamSettings) }) := by
  have hkeep : withDefaultSecurity streamSettings = streamSettings := by
    unfold withDefaultSecurity securityOf
    simp [hsec]
  have hproxy : ({ proxy with StreamSetting := some streamSettings } : OutboundDetourConfig) =
      proxy := by
    rw [← hss]
  rw [streamSettingsQuery_eq env proxy link streamSettings hss hnull, hkeep, hproxy]

theorem URL.String_fragment (u : URL) (h : u.Fragment ≠ "") :
    u.String = ({ u with Fragment := "" } : URL).String ++ "#" ++ escape u.Fragment .encodeFragment := by
  unfold URL.String
  simp [h]

theorem withDefaultSecurity_idem (streamSettings : StreamConfig) :
    withDefaultSecurity (withDefaultSecurity streamSettings) = withDefaultSecurity streamSettings := by
  unfold withDefaultSecurity securityOf
  by_cases h : streamSettings.Security = "" <;> simp [h]

theorem streamParams_withDefaultSecurity (env : Env) (streamSettings : StreamConfig) :
    streamParams env (withDefaultSecurity streamSettings) = streamParams env streamSettings := by
  have h1 : networkOf (withDefaultSecurity streamSettings) = networkOf streamSettings := rfl
  have h2 : transportParams env (withDefaultSecurity streamSettings) =
      transportParams env streamSettings := rfl
  have h3 : securityOf (withDefaultSecurity streamSettings) = securityOf streamSettings := by
    unfold withDefaultSecurity securityOf
    by_cases h : streamSettings.Security = "" <;> simp [h]
  simp only [streamParams, h1, h2, h3, securityParams_withDefaultSecurity]

theorem streamSettingsQuery_descriptor (env : Env) (proxy proxy' : OutboundDetourConfig)
    (link link' : URL) (h : streamSettingsQuery env proxy link = .ret (proxy', link')) :
    proxy' = { proxy with StreamSetting := proxy.StreamSetting.map withDefaultSecurity } := by
  cases hss : proxy.StreamSetting with
  | none =>
    rw [streamSettingsQuery_absent env proxy link hss] at h
    simp only [Run.ret.injEq, Prod.mk.injEq] at h
    rw [← h.1, Option.map_none', ← hss]
  | some streamSettings =>
    cases hnull : headerDecodesToNull env streamSettings with
    | true =>
      rw [streamSettingsQuery_panic env proxy link streamSettings hss hnull] at h
      simp at h
    | false =>
      rw [streamSettingsQuery_eq env proxy link streamSettings hss hnull] at h
      simp only [Run.ret.injEq, Prod.mk.injEq] at h
      rw [← h.1, Option.map_some']

/-! ## The claims, continued -/

/-- C11.  For a ws transport with tls whose ws path, ws host, tls fingerprint
and tls server name are all non-empty, with no alpn entry and the insecure
flag unset, `streamSettingsQuery` leaves the descriptor as it is and appends
exactly `type=ws`, `security=tls`, `path`, `host`, `fp`, `sni`, in this order;
as a string the query is these six rendered parameters (after the old query,
if it was non-empty) joined by `&`. -/
theorem ws_tls_query_order (env : Env) (proxy : OutboundDetourConfig) (link : URL)
    (streamSettings : StreamConfig) (wsSettings : WebSocketConfig) (tlsSettings : TLSConfig)
    (hss : proxy.StreamSetting = some streamSettings)
    (hnet : streamSettings.Network = some "ws") (hsec : streamSettings.Security = "tls")
    (hws : streamSettings.WSSettings = some wsSettings)
    (htls : streamSettings.TLSSettings = some tlsSettings)
    (hpath : wsSettings.Path ≠ "") (hhost : wsSettings.Host ≠ "")
    (hfp : tlsSettings.Fingerprint ≠ "") (hsni : tlsSettings.ServerName ≠ "")
    (halpn : tlsSettings.ALPN = none ∨ tlsSettings.ALPN = some [])
    (hinsecure : tlsSettings.Insecure = false) :
    ∃ built, streamSettingsQuery env proxy link = .ret (proxy, built) ∧
      built.RawQuery = addQueries link.RawQuery
        [("type", "ws"), ("security", "tls"), ("path", wsSettings.Path), ("host", wsSettings.Host),
          ("fp", tlsSettings.Fingerprint), ("sni", tlsSettings.ServerName)] ∧
      built.RawQuery = stringsJoin ((if link.RawQuery = "" then [] else [link.RawQuery]) ++
        ["type=ws", "security=tls", "path=" ++ QueryEscape wsSettings.Path,
          "host=" ++ QueryEscape wsSettings.Host, "fp=" ++ QueryEscape tlsSettings.Fingerprint,
          "sni=" ++ QueryEscape tlsSettings.ServerName]) "&" := by
  have hnetwork : networkOf streamSettings = "ws" := by simp [networkOf, hnet]
  have hnull : headerDecodesToNull env streamSettings = false := by
    unfold headerDecodesToNull
    rw [hnetwork]
    rfl
  have hsecurity : securityOf streamSettings = "tls" := by simp [securityOf, hsec]
  have hkeep : withDefaultSecurity streamSettings = streamSettings := by
    unfold withDefaultSecurity
    rw [hsecurity, ← hsec]
  have hproxy : ({ proxy with StreamSetting := some streamSettings } : OutboundDetourConfig) =
      proxy := by
    rw [← hss]
  have htransport : transportParams env streamSettings =
      [("path", wsSettings.Path), ("host", wsSettings.Host)] := by
    unfold transportParams
    rw [hnetwork]
    simp [wsParams, hws, paramIfSet, hpath, hhost]
  have hsecparams : securityParams streamSettings =
      [("fp", tlsSettings.Fingerprint), ("sni", tlsSettings.ServerName)] := by
    unfold securityParams
    rcases halpn with halpn | halpn <;>
      simp [hsec, tlsParams, htls, paramIfSet, paramIfAny, hfp, hsni, halpn, hinsecure]
  have hparams : streamParams env streamSettings =
      [("type", "ws"), ("security", "tls"), ("path", wsSettings.Path), ("host", wsSettings.Host),
        ("fp", tlsSettings.Fingerprint), ("sni", tlsSettings.ServerName)] := by
    simp [streamParams, hnetwork, hsecurity, htransport, hsecparams]
  refine ⟨{ link with RawQuery := addQueries link.RawQuery (streamParams env streamSettings) },
    ?_, ?_, ?_⟩
  · rw [streamSettingsQuery_eq env proxy link streamSettings hss hnull, hkeep, hproxy]
  · simp only [hparams]
  · simp only [hparams]
    rw [addQueries_eq_stringsJoin]
    rfl

/-- Witness for C11: path `/p q`, host `h.example.com`, fingerprint `chrome`,
server name `h.example.com`. -/
theorem ws_tls_query_order_witness :
    (wsFullStream.WSSettings = some { Path := "/p q", Host := "h.example.com" } ∧
      wsFullStream.TLSSettings = some { ServerName := "h.example.com", Fingerprint := "chrome" } ∧
      streamSettingsQuery demoEnv wsFullOutbound {} =
        .ret (wsFullOutbound, { RawQuery :=
          "type=ws&security=tls&path=%2Fp+q&host=h.example.com&fp=chrome&sni=h.example.com" })) ∧
    ∃ built, streamSettingsQuery demoEnv wsFullOutbound {} = .ret (wsFullOutbound, built) ∧
      built.RawQuery = addQueries ""
        [("type", "ws"), ("security", "tls"), ("path", "/p q"), ("host", "h.example.com"),
          ("fp", "chrome"), ("sni", "h.example.com")] ∧
      built.RawQuery = stringsJoin ((if ("" : String) = "" then [] else [""]) ++
        ["type=ws", "security=tls", "path=" ++ QueryEscape "/p q",
          "host=" ++ QueryEscape "h.example.com", "fp=" ++ QueryEscape "chrome",
          "sni=" ++ QueryEscape "h.example.com"]) "&" :=
  ⟨by decide,
    ws_tls_query_order demoEnv wsFullOutbound {} wsFullStream
      { Path := "/p q", Host := "h.example.com" }
      { ServerName := "h.example.com", Fingerprint := "chrome" }
      rfl rfl rfl rfl rfl (by decide) (by decide) (by decide) (by decide) (Or.inl rfl) rfl⟩

/-- C12.  A document whose only outbound is vless with address `example.com`,
port 443, id `uuid-1`, flow `xtls-rprx-vision`, transport ws, security tls, ws
path `/p`, ws host `h.example.com` and tls server name `h.example.com`
converts to the single line of the example, ending in `#` and the escaped
display name; the display name (the tag or the fallback of the protocol) is
taken to be non-empty. -/
theorem example_vless_ws_tls_line (env : Env) (xrayBytes : Bytes) (proxy : OutboundDetourConfig)
    (raw : RawMessage)
    (hdec : env.unmarshalConfig xrayBytes = .ok (some { OutboundConfigs := [proxy] }))
    (hprotocol : proxy.Protocol = "vless") (hraw : proxy.Settings = some raw)
    (hsettings : env.unmarshalVLess raw = .ok (some vlessSettings))
    (hstream : proxy.StreamSetting = some wsTlsStream)
    (hname : env.getOutboundName proxy ≠ "") :
    ConvertXrayJsonToShareLinks env xrayBytes =
      .ret ("vless://uuid-1@example.com:443?flow=xtls-rprx-vision&type=ws&security=tls&path=%2Fp&host=h.example.com&sni=h.example.com#" ++
        escape (env.getOutboundName proxy) .encodeFragment, none) := by
  have hbase : protocolSwitch env proxy {} = .ret (.ok
      { Scheme := "vless", User := some (User "uuid-1"), Host := "example.com:443",
        RawQuery := "flow=xtls-rprx-vision", Fragment := env.getOutboundName proxy }) := by
    have h1 : len vlessSettings.Flow > 0 := by decide
    have h2 : ¬ len vlessSettings.Encryption > 0 := by decide
    have h3 : addQuery "" "flow" vlessSettings.Flow = "flow=xtls-rprx-vision" := by decide
    have h4 : sprintHost vlessSettings.Address vlessSettings.Port = "example.com:443" := by decide
    have h5 : vlessSettings.Id = "uuid-1" := rfl
    simp only [protocolSwitch, hprotocol, vlessLink, hraw, hsettings, h1, h2, h3, h4, h5, if_true,
      if_false]
    simp
  have hnull : headerDecodesToNull env wsTlsStream = false := rfl
  have hparams : streamParams env wsTlsStream =
      [("type", "ws"), ("security", "tls"), ("path", "/p"), ("host", "h.example.com"),
        ("sni", "h.example.com")] := rfl
  have hquery : addQueries "flow=xtls-rprx-vision"
      [("type", "ws"), ("security", "tls"), ("path", "/p"), ("host", "h.example.com"),
        ("sni", "h.example.com")] =
      "flow=xtls-rprx-vision&type=ws&security=tls&path=%2Fp&host=h.example.com&sni=h.example.com" := by
    decide
  have hkeep : withDefaultSecurity wsTlsStream = wsTlsStream := by decide
  have hproxy : ({ proxy with StreamSetting := some wsTlsStream } : OutboundDetourConfig) =
      proxy := by
    rw [← hstream]
  have hlink : shareLink env proxy = .ret (proxy, .ok
      { Scheme := "vless", User := some (User "uuid-1"), Host := "example.com:443",
        RawQuery :=
          "flow=xtls-rprx-vision&type=ws&security=tls&path=%2Fp&host=h.example.com&sni=h.example.com",
        Fragment := env.getOutboundName proxy }) := by
    rw [shareLink_eq_withStreamSettings env proxy _ hbase]
    unfold withStreamSettings
    rw [streamSettingsQuery_eq env proxy _ wsTlsStream hstream hnull, hkeep, hproxy, hparams]
    simp only [hquery]
  have hstring : (⟨"vless", some (User "uuid-1"), "example.com:443",
      "flow=xtls-rprx-vision&type=ws&security=tls&path=%2Fp&host=h.example.com&sni=h.example.com",
      ""⟩ : URL).String =
      "vless://uuid-1@example.com:443?flow=xtls-rprx-vision&type=ws&security=tls&path=%2Fp&host=h.example.com&sni=h.example.com" := by
    decide
  unfold ConvertXrayJsonToShareLinks
  simp only [hdec, collectLinks, hlink, List.length_cons, List.length_nil, List.nil_append]
  rw [URL.String_fragment _ hname]
  simp only [hstring]
  simp [stringsJoin, String.append_assoc]

set_option maxRecDepth 100000 in
/-- Witness for C12: the document `docExample`, whose display name is `vless`. -/
theorem example_vless_ws_tls_line_witness :
    (demoEnv.unmarshalConfig docExample = .ok (some { OutboundConfigs := [wsTlsOutbound] }) ∧
      demoEnv.unmarshalVLess vlessBlob = .ok (some vlessSettings) ∧
      demoEnv.getOutboundName wsTlsOutbound = "vless" ∧
      escape "vless" .encodeFragment = "vless") ∧
    ConvertXrayJsonToShareLinks demoEnv docExample =
      .ret ("vless://uuid-1@example.com:443?flow=xtls-rprx-vision&type=ws&security=tls&path=%2Fp&host=h.example.com&sni=h.example.com#" ++
        escape (demoEnv.getOutboundName wsTlsOutbound) .encodeFragment, none) :=
  ⟨by decide,
    example_vless_ws_tls_line demoEnv docExample wsTlsOutbound vlessBlob (by decide) rfl rfl
      (by decide) rfl (by decide)⟩

/-- C13.  When `streamSettingsQuery` returns for a block with security kind tls
and tls settings, the query ends with the security section `fp`, `sni`,
`alpn` (the list joined by `,`), each present if and only if its field is
non-empty, then `allowInsecure=1` if and only if the insecure flag is set;
with security kind reality and reality settings the section is `fp`, `sni`,
`pbk`, `sid`, `pqv`, `spx`, each present if and only if its field is
non-empty; without the settings of the kind the section is empty. -/
theorem security_section (env : Env) (proxy : OutboundDetourConfig) (link : URL)
    (streamSettings : StreamConfig) (hss : proxy.StreamSetting = some streamSettings)
    (hnull : headerDecodesToNull env streamSettings = false) :
    (streamSettings.Security = "tls" → ∀ tlsSettings,
      streamSettings.TLSSettings = some tlsSettings →
      streamSettingsQuery env proxy link =
        .ret (proxy,
          { link with
            RawQuery := addQueries link.RawQuery
              (("type", networkOf streamSettings) :: ("security", "tls") ::
                (transportParams env streamSettings ++
                  (paramIfSet "fp" tlsSettings.Fingerprint ++
                    paramIfSet "sni" tlsSettings.ServerName ++
                    paramIfAny "alpn" (tlsSettings.ALPN.getD []) ++
                    (if tlsSettings.Insecure then [("allowInsecure", "1")] else [])))) })) ∧
    (streamSettings.Security = "reality" → ∀ realitySettings,
      streamSettings.REALITYSettings = some realitySettings →
      streamSettingsQuery env proxy link =
        .ret (proxy,
          { link with
            RawQuery := addQueries link.RawQuery
              (("type", networkOf streamSettings) :: ("security", "reality") ::
                (transportParams env streamSettings ++
                  (paramIfSet "fp" realitySettings.Fingerprint ++
                    paramIfSet "sni" realitySettings.ServerName ++
                    paramIfSet "pbk" realitySettings.Password ++
                    paramIfSet "sid" realitySettings.ShortId ++
                    paramIfSet "pqv" realitySettings.Mldsa65Verify ++
                    paramIfSet "spx" realitySettings.SpiderX))) })) ∧
    ((streamSettings.Security = "tls" ∧ streamSettings.TLSSettings = none) ∨
      (streamSettings.Security = "reality" ∧ streamSettings.REALITYSettings = none) →
      streamSettingsQuery env proxy link =
        .ret (proxy,
          { link with
            RawQuery := addQueries link.RawQuery
              (("type", networkOf streamSettings) ::
                ("security", streamSettings.Security) :: transportParams env streamSettings) })) := by
  refine ⟨?_, ?_, ?_⟩
  · intro hsec tlsSettings htls
    have hne : streamSettings.Security ≠ "" := by rw [hsec]; decide
    rw [streamSettingsQuery_keep env proxy link streamSettings hss hne hnull]
    have hsp : securityParams streamSettings =
        paramIfSet "fp" tlsSettings.Fingerprint ++ paramIfSet "sni" tlsSettings.ServerName ++
          paramIfAny "alpn" (tlsSettings.ALPN.getD []) ++
          (if tlsSettings.Insecure then [("allowInsecure", "1")] else []) := by
      unfold securityParams
      simp only [hsec, if_true, tlsParams, htls]
      cases tlsSettings.ALPN <;> simp [paramIfAny]
    simp only [streamParams, hsp, securityOf, hsec]
    rfl
  · intro hsec realitySettings hreality
    have hne : streamSettings.Security ≠ "" := by rw [hsec]; decide
    rw [streamSettingsQuery_keep env proxy link streamSettings hss hne hnull]
    have hsp : securityParams streamSettings =
        paramIfSet "fp" realitySettings.Fingerprint ++
          paramIfSet "sni" realitySettings.ServerName ++
          paramIfSet "pbk" realitySettings.Password ++
          paramIfSet "sid" realitySettings.ShortId ++
          paramIfSet "pqv" realitySettings.Mldsa65Verify ++
          paramIfSet "spx" realitySettings.SpiderX := by
      unfold securityParams
      rw [hsec]
      simp only [realityParams, hreality]
      rfl
    simp only [streamParams, hsp, securityOf, hsec]
    rfl
  · intro h
    have hne : streamSettings.Security ≠ "" := by
      rcases h with ⟨h, _⟩ | ⟨h, _⟩ <;> rw [h] <;> decide
    rw [streamSettingsQuery_keep env proxy link streamSettings hss hne hnull]
    have hsp : securityParams streamSettings = [] := by
      unfold securityParams
      rcases h with ⟨h, h2⟩ | ⟨h, h2⟩
      · simp [h, tlsParams, h2]
      · rw [h]
        simp [realityParams, h2]
    simp [streamParams, hsp, securityOf, hne]

/-- Witness for C13: a tls block with all four parameters and a reality block
with an empty `pqv` field. -/
theorem security_section_witness :
    (headerDecodesToNull demoEnv tlsStream = false ∧ tlsStream.TLSSettings = some tlsFull ∧
      realityStream.REALITYSettings = some realityFull ∧
      streamSettingsQuery demoEnv tlsOutbound {} =
        .ret (tlsOutbound, { RawQuery :=
          "type=ws&security=tls&fp=chrome&sni=h.example.com&alpn=h2%2Chttp%2F1.1&allowInsecure=1" }) ∧
      streamSettingsQuery demoEnv realityOutbound {} =
        .ret (realityOutbound, { RawQuery :=
          "type=ws&security=reality&fp=chrome&sni=r.example.com&pbk=pk&sid=01&spx=%2F" })) ∧
    streamSettingsQuery demoEnv tlsOutbound {} =
      .ret (tlsOutbound,
        { RawQuery := addQueries ""
            (("type", networkOf tlsStream) :: ("security", "tls") ::
              (transportParams demoEnv tlsStream ++
                (paramIfSet "fp" tlsFull.Fingerprint ++ paramIfSet "sni" tlsFull.ServerName ++
                  paramIfAny "alpn" (tlsFull.ALPN.getD []) ++
                  (if tlsFull.Insecure then [("allowInsecure", "1")] else [])))) }) ∧
    streamSettingsQuery demoEnv realityOutbound {} =
      .ret (realityOutbound,
        { RawQuery := addQueries ""
            (("type", networkOf realityStream) :: ("security", "reality") ::
              (transportParams demoEnv realityStream ++
                (paramIfSet "fp" realityFull.Fingerprint ++
                  paramIfSet "sni" realityFull.ServerName ++
                  paramIfSet "pbk" realityFull.Password ++
                  paramIfSet "sid" realityFull.ShortId ++
                  paramIfSet "pqv" realityFull.Mldsa65Verify ++
                  paramIfSet "spx" realityFull.SpiderX))) }) :=
  ⟨by decide,
    (security_section demoEnv tlsOutbound {} tlsStream rfl (by decide)).1 rfl tlsFull rfl,
    (security_section demoEnv realityOutbound {} realityStream rfl (by decide)).2.1 rfl realityFull
      rfl⟩

/-- C14, counterexample.  The block of `plainOutbound` has an empty security
kind; after `streamSettingsQuery` the security kind of the descriptor reads
`none`, so the descriptor is not what it was before the call. -/
theorem security_kind_overwritten :
    plainOutbound.StreamSetting = some { Network := some "ws", Security := "" } ∧
    streamSettingsQuery demoEnv plainOutbound {} =
      .ret (plainOutboundAfter, { RawQuery := "type=ws&security=none" }) ∧
    plainOutboundAfter.StreamSetting = some { Network := some "ws", Security := "none" } ∧
    plainOutboundAfter ≠ plainOutbound := by
  decide

/-- C14, amended.  When `streamSettingsQuery` returns, and when `shareLink`
returns a link, the descriptor is what it was except that an empty security
kind of its transport settings block reads `none`; every other field of the
descriptor and of the block, and a non-empty security kind, are unchanged.
When `shareLink` returns an error the descriptor is unchanged. -/
theorem descriptor_frame (env : Env) (proxy : OutboundDetourConfig) (link : URL) :
    (∀ proxy' link', streamSettingsQuery env proxy link = .ret (proxy', link') →
      proxy' = { proxy with StreamSetting := proxy.StreamSetting.map withDefaultSecurity }) ∧
    (∀ proxy' shareUrl, shareLink env proxy = .ret (proxy', .ok shareUrl) →
      proxy' = { proxy with StreamSetting := proxy.StreamSetting.map withDefaultSecurity }) ∧
    (∀ proxy' err, shareLink env proxy = .ret (proxy', .error err) → proxy' = proxy) ∧
    (∀ streamSettings : StreamConfig,
      withDefaultSecurity streamSettings =
        { streamSettings with
          Security := if streamSettings.Security = "" then "none" else streamSettings.Security } ∧
      (streamSettings.Security ≠ "" → withDefaultSecurity streamSettings = streamSettings)) := by
  refine ⟨?_, ?_, ?_, ?_⟩
  · intro proxy' link' h
    exact streamSettingsQuery_descriptor env proxy proxy' link link' h
  · intro proxy' shareUrl h
    unfold shareLink at h
    simp only at h
    split at h
    · simp at h
    · simp at h
    · next base _ =>
      split at h
      · simp at h
      · next p l hq =>
        simp only [Run.ret.injEq, Prod.mk.injEq] at h
        rw [← h.1]
        exact streamSettingsQuery_descriptor env proxy p base l hq
  · intro proxy' err h
    exact shareLink_error_fst env proxy proxy' err h
  · intro streamSettings
    refine ⟨rfl, ?_⟩
    intro hne
    unfold withDefaultSecurity securityOf
    simp [hne]

/-- Witness for C14: the descriptor with an empty security kind, and one with
security kind tls, which is returned unchanged. -/
theorem descriptor_frame_witness :
    (streamSettingsQuery demoEnv plainOutbound {} =
        .ret (plainOutboundAfter, { RawQuery := "type=ws&security=none" }) ∧
      streamSettingsQuery demoEnv wsTlsOutbound {} =
        .ret (wsTlsOutbound, { RawQuery :=
          "type=ws&security=tls&path=%2Fp&host=h.example.com&sni=h.example.com" })) ∧
    plainOutboundAfter =
      { plainOutbound with StreamSetting := plainOutbound.StreamSetting.map withDefaultSecurity } ∧
    wsTlsOutbound =
      { wsTlsOutbound with StreamSetting := wsTlsOutbound.StreamSetting.map withDefaultSecurity } :=
  ⟨by decide,
    (descriptor_frame demoEnv plainOutbound {}).1 plainOutboundAfter
      { RawQuery := "type=ws&security=none" } (by decide),
    (descriptor_frame demoEnv wsTlsOutbound {}).1 wsTlsOutbound
      { RawQuery := "type=ws&security=tls&path=%2Fp&host=h.example.com&sni=h.example.com" }
      (by decide)⟩

/-- A second run of `streamSettingsQuery` on the descriptor that a first run
returned gives the same descriptor and the same link: the write to the
security kind of the block changes no later result. -/
theorem streamSettingsQuery_rerun (env : Env) (proxy proxy' : OutboundDetourConfig)
    (link link' : URL) (h : streamSettingsQuery env proxy link = .ret (proxy', link')) :
    streamSettingsQuery env proxy' link = .ret (proxy', link') := by
  cases hss : proxy.StreamSetting with
  | none =>
    rw [streamSettingsQuery_absent env proxy link hss] at h
    simp only [Run.ret.injEq, Prod.mk.injEq] at h
    rw [← h.1, ← h.2]
    exact streamSettingsQuery_absent env proxy link hss
  | some streamSettings =>
    cases hnull : headerDecodesToNull env streamSettings with
    | true =>
      rw [streamSettingsQuery_panic env proxy link streamSettings hss hnull] at h
      simp at h
    | false =>
      rw [streamSettingsQuery_eq env proxy link streamSettings hss hnull] at h
      simp only [Run.ret.injEq, Prod.mk.injEq] at h
      have hss' : proxy'.StreamSetting = some (withDefaultSecurity streamSettings) := by
        rw [← h.1]
      have hnull' : headerDecodesToNull env (withDefaultSecurity streamSettings) = false := hnull
      rw [streamSettingsQuery_eq env proxy' link _ hss' hnull', withDefaultSecurity_idem,
        streamParams_withDefaultSecurity, ← h.2]
      have : ({ proxy' with StreamSetting := some (withDefaultSecurity streamSettings) } :
          OutboundDetourConfig) = proxy' := by
        rw [← hss']
      rw [this]

/-- C16.  For transport kind raw: without raw settings or without a header blob
the transport section is empty; for a header blob that decodes to a header it
is empty when the header type is empty, and otherwise `headerType`, then
`path` (the request paths joined by `,`) if and only if there is a request
with a non-empty path list, then `host` (the host list joined by `,`) if and
only if the request has headers with a non-empty host list. -/
theorem raw_transport_section (env : Env) (proxy : OutboundDetourConfig) (link : URL)
    (streamSettings : StreamConfig) (hss : proxy.StreamSetting = some streamSettings)
    (hnet : networkOf streamSettings = "raw") :
    ((streamSettings.RAWSettings = none ∨
        ∃ rawSettings, streamSettings.RAWSettings = some rawSettings ∧
          rawSettings.HeaderConfig = none) →
      streamSettingsQuery env proxy link =
        .ret ({ proxy with StreamSetting := some (withDefaultSecurity streamSettings) },
          { link with
            RawQuery := addQueries link.RawQuery
              (("type", "raw") :: ("security", securityOf streamSettings) ::
                securityParams streamSettings) })) ∧
    (∀ rawSettings headerConfig header, streamSettings.RAWSettings = some rawSettings →
      rawSettings.HeaderConfig = some headerConfig →
      env.unmarshalRawHeader headerConfig = .ok (some header) →
      streamSettingsQuery env proxy link =
        .ret ({ proxy with StreamSetting := some (withDefaultSecurity streamSettings) },
          { link with
            RawQuery := addQueries link.RawQuery
              (("type", "raw") :: ("security", securityOf streamSettings) ::
                ((if header.Type_ = "" then []
                  else
                    ("headerType", header.Type_) ::
                      (match header.Request with
                        | none => []
                        | some request =>
                          paramIfAny "path" request.Path ++
                            (match request.Headers with
                              | none => []
                              | some headers => paramIfAny "host" headers.Host))) ++
                  securityParams streamSettings)) })) := by
  refine ⟨?_, ?_⟩
  · intro h
    have hnull : headerDecodesToNull env streamSettings = false := by
      unfold headerDecodesToNull
      rw [hnet]
      rcases h with h | ⟨r, h, h2⟩ <;> simp [rawHeaderNull, h, *]
    have htr : transportParams env streamSettings = [] := by
      unfold transportParams
      rw [hnet]
      rcases h with h | ⟨r, h, h2⟩ <;> simp [rawParams, h, *]
    rw [streamSettingsQuery_eq env proxy link streamSettings hss hnull]
    simp only [streamParams, htr, hnet, List.nil_append]
  · intro rawSettings headerConfig header hr hh hd
    have hnull : headerDecodesToNull env streamSettings = false := by
      unfold headerDecodesToNull
      rw [hnet]
      simp [rawHeaderNull, hr, hh, hd]
    have htr : transportParams env streamSettings = rawHeaderParams header := by
      unfold transportParams
      rw [hnet]
      simp [rawParams, hr, hh, hd]
    rw [streamSettingsQuery_eq env proxy link streamSettings hss hnull]
    simp only [streamParams, htr, hnet]
    have hraw : rawHeaderParams header =
        (if header.Type_ = "" then []
          else
            ("headerType", header.Type_) ::
              (match header.Request with
                | none => []
                | some request =>
                  paramIfAny "path" request.Path ++
                    (match request.Headers with
                      | none => []
                      | some headers => paramIfAny "host" headers.Host))) := by
      unfold rawHeaderParams
      by_cases ht : header.Type_ = ""
      · simp [ht]
      · simp only [ht, ne_eq, not_false_eq_true, if_true, if_false]
    rw [hraw]

/-- Witness for C16: an http header with two paths and two hosts. -/
theorem raw_transport_section_witness :
    (networkOf rawHttpStream = "raw" ∧
      rawHttpStream.RAWSettings = some { HeaderConfig := some rawHeaderBlob } ∧
      demoEnv.unmarshalRawHeader rawHeaderBlob = .ok (some rawHeaderValue) ∧
      streamSettingsQuery demoEnv rawHttpOutbound {} =
        .ret ({ rawHttpOutbound with StreamSetting := some (withDefaultSecurity rawHttpStream) },
          { RawQuery :=
            "type=raw&security=none&headerType=http&path=%2Fa%2C%2Fb&host=x.example.com%2Cy.example.com" })) ∧
    streamSettingsQuery demoEnv rawHttpOutbound {} =
      .ret ({ rawHttpOutbound with StreamSetting := some (withDefaultSecurity rawHttpStream) },
        { RawQuery := addQueries ""
            [("type", "raw"), ("security", "none"), ("headerType", "http"), ("path", "/a,/b"),
              ("host", "x.example.com,y.example.com")] }) :=
  ⟨by decide,
    (raw_transport_section demoEnv rawHttpOutbound {} rawHttpStream rfl (by decide)).2
      { HeaderConfig := some rawHeaderBlob } rawHeaderBlob rawHeaderValue rfl rfl (by decide)⟩

/-- C17.  For transport kind xhttp with xhttp settings the transport section is
`host`, `path`, `mode`, each present if and only if its field is non-empty,
followed by the `extra` parameter: absent without an extra blob, absent when
the blob fails to decode or the decoded value fails to re-serialize, and the
re-serialized text otherwise. -/
theorem xhttp_transport_section (env : Env) (proxy : OutboundDetourConfig) (link : URL)
    (streamSettings : StreamConfig) (xhttpSettings : SplitHTTPConfig)
    (hss : proxy.StreamSetting = some streamSettings)
    (hnet : networkOf streamSettings = "xhttp")
    (hxhttp : streamSettings.XHTTPSettings = some xhttpSettings) :
    streamSettingsQuery env proxy link =
      .ret ({ proxy with StreamSetting := some (withDefaultSecurity streamSettings) },
        { link with
          RawQuery := addQueries link.RawQuery
            (("type", "xhttp") :: ("security", securityOf streamSettings) ::
              (paramIfSet "host" xhttpSettings.Host ++ paramIfSet "path" xhttpSettings.Path ++
                paramIfSet "mode" xhttpSettings.Mode ++ extraParam env xhttpSettings.Extra ++
                securityParams streamSettings)) }) ∧
    (xhttpSettings.Extra = none → extraParam env xhttpSettings.Extra = []) ∧
    (∀ blob err, xhttpSettings.Extra = some blob → env.unmarshalSplitHTTP blob = .error err →
      extraParam env xhttpSettings.Extra = []) ∧
    (∀ blob extraConfig err, xhttpSettings.Extra = some blob →
      env.unmarshalSplitHTTP blob = .ok extraConfig →
      env.marshalSplitHTTP extraConfig = .error err → extraParam env xhttpSettings.Extra = []) ∧
    (∀ blob extraConfig extraBytes, xhttpSettings.Extra = some blob →
      env.unmarshalSplitHTTP blob = .ok extraConfig →
      env.marshalSplitHTTP extraConfig = .ok extraBytes →
      extraParam env xhttpSettings.Extra = [("extra", extraBytes)]) := by
  have hnull : headerDecodesToNull env streamSettings = false := by
    unfold headerDecodesToNull
    rw [hnet]
    rfl
  have htr : transportParams env streamSettings =
      paramIfSet "host" xhttpSettings.Host ++ paramIfSet "path" xhttpSettings.Path ++
        paramIfSet "mode" xhttpSettings.Mode ++ extraParam env xhttpSettings.Extra := by
    unfold transportParams
    rw [hnet]
    simp only [xhttpParams, hxhttp]
    rfl
  refine ⟨?_, ?_, ?_, ?_, ?_⟩
  · rw [streamSettingsQuery_eq env proxy link streamSettings hss hnull]
    simp only [streamParams, htr, hnet, List.append_assoc]
  · intro h; simp [extraParam, h]
  · intro blob err h hd; simp [extraParam, h, hd]
  · intro blob extraConfig err h hd hm; simp [extraParam, h, hd, hm]
  · intro blob extraConfig extraBytes h hd hm; simp [extraParam, h, hd, hm]

/-- Witness for C17: an extra blob `null`, which re-serializes to `null`, and an
extra blob `7`, which does not decode and leaves the rest of the query as it is. -/
theorem xhttp_transport_section_witness :
    (networkOf xhttpStream = "xhttp" ∧ xhttpStream.XHTTPSettings = some xhttpNullExtra ∧
      demoEnv.unmarshalSplitHTTP (utf8 "null") = .ok none ∧
      demoEnv.marshalSplitHTTP none = .ok "null" ∧
      demoEnv.unmarshalSplitHTTP badBlob = .error "json: cannot unmarshal" ∧
      streamSettingsQuery demoEnv xhttpOutbound {} =
        .ret ({ xhttpOutbound with StreamSetting := some (withDefaultSecurity xhttpStream) },
          { RawQuery :=
            "type=xhttp&security=none&host=h.example.com&path=%2Fx&mode=auto&extra=null" }) ∧
      streamSettingsQuery demoEnv xhttpBadExtraOutbound {} =
        .ret ({ xhttpBadExtraOutbound with
                StreamSetting := some (withDefaultSecurity xhttpBadExtraStream) },
          { RawQuery := "type=xhttp&security=none&host=h.example.com&path=%2Fx&mode=auto" })) ∧
    streamSettingsQuery demoEnv xhttpOutbound {} =
      .ret ({ xhttpOutbound with StreamSetting := some (withDefaultSecurity xhttpStream) },
        { RawQuery := addQueries ""
            (("type", "xhttp") :: ("security", securityOf xhttpStream) ::
              (paramIfSet "host" "h.example.com" ++ paramIfSet "path" "/x" ++
                paramIfSet "mode" "auto" ++ extraParam demoEnv (some (utf8 "null")) ++
                securityParams xhttpStream)) }) :=
  ⟨by decide,
    (xhttp_transport_section demoEnv xhttpOutbound {} xhttpStream xhttpNullExtra rfl (by decide)
      rfl).1⟩

/-- C18.  `addQuery` returns `key=escaped value` for an empty query and
`query&key=escaped value` otherwise; the escaped value contains neither `&`
nor `=`; the old query is kept at the front; and a run of `addQuery` calls
renders the parameters in call order, joined by `&`. -/
theorem addQuery_rendering (query key value : String) :
    (query = "" → addQuery query key value = key ++ "=" ++ QueryEscape value) ∧
    (query ≠ "" → addQuery query key value = query ++ "&" ++ key ++ "=" ++ QueryEscape value) ∧
    ('&' ∉ (QueryEscape value).data ∧ '=' ∉ (QueryEscape value).data) ∧
    (∃ suffix, addQuery query key value = query ++ suffix) ∧
    (∀ params : List (String × String),
      addQueries query params =
        stringsJoin ((if query = "" then [] else [query]) ++
          params.map (fun p => p.1 ++ "=" ++ QueryEscape p.2)) "&") := by
  refine ⟨?_, ?_, QueryEscape_clean value, ?_, ?_⟩
  · intro h
    subst h
    exact addQuery_empty key value
  · intro h
    rw [addQuery_nonempty query key value h]
    simp [renderParam, String.append_assoc]
  · by_cases h : query = ""
    · subst h
      exact ⟨addQuery "" key value, by simp⟩
    · exact ⟨"&" ++ renderParam (key, value), by
        rw [addQuery_nonempty query key value h, String.append_assoc]⟩
  · intro params
    exact addQueries_eq_stringsJoin query params

/-- Witness for C18: a value with a space, `&` and `=`. -/
theorem addQuery_rendering_witness :
    (addQuery "" "path" "/p q&r=1" = "path=%2Fp+q%26r%3D1" ∧
      addQuery "type=ws" "path" "/p q&r=1" = "type=ws&path=%2Fp+q%26r%3D1") ∧
    (("type=ws" : String) ≠ "" →
      addQuery "type=ws" "path" "/p q&r=1" = "type=ws" ++ "&" ++ "path" ++ "=" ++
        QueryEscape "/p q&r=1") :=
  ⟨by decide, (addQuery_rendering "type=ws" "path" "/p q&r=1").2.1⟩

/-- C19.  For a descriptor of a supported protocol whose base link is built, and
whose raw or kcp header blob does not decode to `null`, `shareLink` returns a
link whose query is the rendering of the protocol section followed by the
parameters of `streamSettingsQuery`, and the keys of these parameters are
pairwise distinct. -/
theorem query_keys_distinct (env : Env) (proxy : OutboundDetourConfig) (base : URL)
    (hp : proxy.Protocol ∈ ["shadowsocks", "vmess", "vless", "socks", "trojan"])
    (hbase : protocolSwitch env proxy {} = .ret (.ok base))
    (hnull : ∀ streamSettings, proxy.StreamSetting = some streamSettings →
      headerDecodesToNull env streamSettings = false) :
    ∃ built,
      shareLink env proxy =
        .ret ({ proxy with StreamSetting := proxy.StreamSetting.map withDefaultSecurity },
          .ok built) ∧
      built.RawQuery = addQueries "" (linkParams env proxy) ∧
      built.RawQuery = stringsJoin ((linkParams env proxy).map renderParam) "&" ∧
      (keysOf (linkParams env proxy)).Nodup := by
  refine ⟨{ base with RawQuery := addQueries "" (linkParams env proxy) }, ?_, rfl, ?_, ?_⟩
  · exact shareLink_query env proxy base hbase (protocolSwitch_rawQuery env proxy base hp hbase)
      hnull
  · exact addQueries_empty _
  · exact linkParams_nodup env proxy

set_option maxRecDepth 100000 in
/-- Witness for C19: a vless link over ws with tls, with seven distinct keys. -/
theorem query_keys_distinct_witness :
    (wsFullOutbound.Protocol = "vless" ∧
      protocolSwitch demoEnv wsFullOutbound {} =
        .ret (.ok (tableRow "vless" (some "example.com") 443 "uuid-1"
          [("flow", "xtls-rprx-vision")] "vless")) ∧
      headerDecodesToNull demoEnv wsFullStream = false ∧
      keysOf (linkParams demoEnv wsFullOutbound) =
        ["flow", "type", "security", "path", "host", "fp", "sni"]) ∧
    ∃ built,
      shareLink demoEnv wsFullOutbound =
        .ret ({ wsFullOutbound with
                StreamSetting := wsFullOutbound.StreamSetting.map withDefaultSecurity },
          .ok built) ∧
      built.RawQuery = addQueries "" (linkParams demoEnv wsFullOutbound) ∧
      built.RawQuery = stringsJoin ((linkParams demoEnv wsFullOutbound).map renderParam) "&" ∧
      (keysOf (linkParams demoEnv wsFullOutbound)).Nodup :=
  ⟨by decide,
    query_keys_distinct demoEnv wsFullOutbound _ (by decide)
      (by decide : protocolSwitch demoEnv wsFullOutbound {} =
        .ret (.ok (tableRow "vless" (some "example.com") 443 "uuid-1"
          [("flow", "xtls-rprx-vision")] "vless")))
      (by intro streamSettings h; cases h; decide)⟩

/-- C20.  For a transport kind other than raw, kcp, ws, grpc, httpupgrade, xhttp
the parameters are `type=<that kind>`, `security`, and the security section,
with no transport-specific parameter; for a security kind other than tls and
reality they are `type`, `security=<that kind>` and the transport section,
with no security-specific parameter; with both, just `type` and `security`. -/
theorem unknown_kinds_verbatim (env : Env) (proxy : OutboundDetourConfig) (link : URL)
    (streamSettings : StreamConfig) (hss : proxy.StreamSetting = some streamSettings) :
    (networkOf streamSettings ∉ ["raw", "kcp", "ws", "grpc", "httpupgrade", "xhttp"] →
      streamSettingsQuery env proxy link =
        .ret ({ proxy with StreamSetting := some (withDefaultSecurity streamSettings) },
          { link with
            RawQuery := addQueries link.RawQuery
              (("type", networkOf streamSettings) :: ("security", securityOf streamSettings) ::
                securityParams streamSettings) })) ∧
    (securityOf streamSettings ∉ ["tls", "reality"] →
      headerDecodesToNull env streamSettings = false →
      streamSettingsQuery env proxy link =
        .ret ({ proxy with StreamSetting := some (withDefaultSecurity streamSettings) },
          { link with
            RawQuery := addQueries link.RawQuery
              (("type", networkOf streamSettings) :: ("security", securityOf streamSettings) ::
                transportParams env streamSettings) })) ∧
    (networkOf streamSettings ∉ ["raw", "kcp", "ws", "grpc", "httpupgrade", "xhttp"] →
      securityOf streamSettings ∉ ["tls", "reality"] →
      streamSettingsQuery env proxy link =
        .ret ({ proxy with StreamSetting := some (withDefaultSecurity streamSettings) },
          { link with
            RawQuery := addQueries link.RawQuery
              [("type", networkOf streamSettings), ("security", securityOf streamSettings)] })) := by
  have hnet : networkOf streamSettings ∉ ["raw", "kcp", "ws", "grpc", "httpupgrade", "xhttp"] →
      headerDecodesToNull env streamSettings = false ∧ transportParams env streamSettings = [] := by
    intro h
    simp only [List.mem_cons, List.mem_singleton, List.not_mem_nil, or_false, not_or] at h
    obtain ⟨h1, h2, h3, h4, h5, h6⟩ := h
    constructor
    · simp [headerDecodesToNull, h1, h2]
    · simp [transportParams, h1, h2, h3, h4, h5, h6]
  have hsec : securityOf streamSettings ∉ ["tls", "reality"] →
      securityParams streamSettings = [] := by
    intro h
    simp only [List.mem_cons, List.mem_singleton, List.not_mem_nil, or_false, not_or] at h
    obtain ⟨h1, h2⟩ := h
    unfold securityOf at h1 h2
    unfold securityParams
    by_cases he : streamSettings.Security = ""
    · simp [he]
    · simp only [he, if_false] at h1 h2
      simp [h1, h2]
  refine ⟨?_, ?_, ?_⟩
  · intro h
    rw [streamSettingsQuery_eq env proxy link streamSettings hss (hnet h).1]
    simp only [streamParams, (hnet h).2, List.nil_append]
  · intro h hnull
    rw [streamSettingsQuery_eq env proxy link streamSettings hss hnull]
    simp only [streamParams, hsec h, List.append_nil]
  · intro h1 h2
    rw [streamSettingsQuery_eq env proxy link streamSettings hss (hnet h1).1]
    simp only [streamParams, (hnet h1).2, hsec h2, List.append_nil]

/-- Witness for C20: transport kind `tcp` with security kind `xtls`, and
transport kind `websocket` with security kind tls. -/
theorem unknown_kinds_verbatim_witness :
    (networkOf unknownKindsStream = "tcp" ∧ securityOf unknownKindsStream = "xtls" ∧
      streamSettingsQuery demoEnv unknownKindsOutbound {} =
        .ret (unknownKindsOutbound, { RawQuery := "type=tcp&security=xtls" }) ∧
      streamSettingsQuery demoEnv websocketTlsOutbound {} =
        .ret (websocketTlsOutbound,
          { RawQuery := "type=websocket&security=tls&sni=h.example.com" })) ∧
    streamSettingsQuery demoEnv unknownKindsOutbound {} =
      .ret ({ unknownKindsOutbound with
              StreamSetting := some (withDefaultSecurity unknownKindsStream) },
        { RawQuery := addQueries ""
            [("type", networkOf unknownKindsStream), ("security", securityOf unknownKindsStream)] }) ∧
    streamSettingsQuery demoEnv websocketTlsOutbound {} =
      .ret ({ websocketTlsOutbound with
              StreamSetting := some (withDefaultSecurity websocketTlsStream) },
        { RawQuery := addQueries ""
            (("type", networkOf websocketTlsStream) :: ("security", securityOf websocketTlsStream) ::
              securityParams websocketTlsStream) }) :=
  ⟨by decide,
    (unknown_kinds_verbatim demoEnv unknownKindsOutbound {} unknownKindsStream rfl).2.2 (by decide)
      (by decide),
    (unknown_kinds_verbatim demoEnv websocketTlsOutbound {} websocketTlsStream rfl).1 (by decide)⟩

end Share
